import Mathlib

/-!
Verification development for the floor-plan generator and building-code
validator of the `aihouseplancad` backend.

The Python source is shallowly embedded as follows.

* Python floats are modelled as exact numbers: the compliance validator and
  the space-allocation planner are generic over a `LinearOrderedField` (they
  are executed at `ℚ` for concrete evaluation and at `ℝ` when composed with
  the generator); the geometric generator lives over `ℝ` because it uses
  `math.sqrt`.
* `validate_floor_plan` returns `Option`: `none` models the
  `ZeroDivisionError` raised by `_validate_overall_plan` when
  `floor_plan.total_sqft` is `0` (the variance computation divides by the
  claimed total).  Every other code path of the validator is total.
* Violation `message` / `recommendation` strings are formatted presentation
  text and carry no decision logic; a violation is modelled by its
  `severity`, `room` and `code` fields, which identify it uniquely.
* `list.sort(key=..., reverse=True)` is a stable descending sort; it is
  modelled by a stable insertion sort on the placement priority.
* Python `round` (banker's rounding) is `pyRound`; `int()` truncation toward
  zero is `pyTrunc`; `range(a, b, s)` for positive `s` is `pyRange`.
* The `while` correction loop of `_calculate_building_envelope` is embedded
  with explicit fuel (`envLoop`); the fuel chosen in `buildingEnvelopePre` is
  proved sufficient whenever the loop's starting dimensions are positive.
-/

namespace HousePlanCad

/-- `RoomType` enumeration from `app/models/room.py`. -/
inductive RoomType where
  | living
  | dining
  | kitchen
  | bedroom
  | masterBedroom
  | bathroom
  | masterBathroom
  | office
  | laundry
  | garage
  | hallway
  | storage
  | pantry
  | mudroom
  | temple
  | gym
  | library
deriving DecidableEq

/-- `Orientation` enumeration from `app/models/room.py`. -/
inductive Orientation where
  | north
  | south
  | east
  | west
  | northeast
  | northwest
  | southeast
  | southwest
deriving DecidableEq

/-- A door record: the dict `{'x', 'y', 'width', 'type'}` appended by
`_add_openings`. -/
structure DoorSpec (α : Type) where
  x : α
  y : α
  width : α
  kind : String
deriving DecidableEq

/-- A window record: the dict `{'x', 'y', 'width', 'height', 'type'}`. -/
structure WindowSpec (α : Type) where
  x : α
  y : α
  width : α
  height : α
  kind : String
deriving DecidableEq

/-- The `Room` dataclass from `app/models/room.py`. -/
structure Room (α : Type) where
  name : String
  roomType : RoomType
  x : α
  y : α
  width : α
  height : α
  area : α
  color : String
  orientation : Option Orientation
  floorLevel : ℤ
  doors : List (DoorSpec α)
  windows : List (WindowSpec α)
  adjacentRooms : List String
  priority : ℤ
deriving DecidableEq

/-- The `FloorPlan` dataclass from `app/models/room.py`. -/
structure FloorPlan (α : Type) where
  totalSqFt : α
  rooms : List (Room α)
  bedrooms : ℕ
  bathrooms : ℕ
  floors : ℕ
  style : String
  lotWidth : α
  lotDepth : α

/-- ASCII lower-casing of one character (model of Python `str.lower` on the
ASCII style tags used by the allocation table). -/
def asciiLower (c : Char) : Char :=
  if 'A' ≤ c ∧ c ≤ 'Z' then Char.ofNat (c.toNat + 32) else c

/-- `style.lower()` (ASCII model; the style keys of the allocation table are
all ASCII). -/
def lowerString (s : String) : String := ⟨s.data.map asciiLower⟩

section GenericField

variable {α : Type} [LinearOrderedField α]

/-- `Room.center` x-coordinate: `x + width / 2`. -/
def Room.centerX (r : Room α) : α := r.x + r.width / 2

/-- `Room.center` y-coordinate: `y + height / 2`. -/
def Room.centerY (r : Room α) : α := r.y + r.height / 2

/-- `Room.aspect_ratio`: `width / height if height > 0 else 1.0`. -/
def Room.aspect (r : Room α) : α := if r.height > 0 then r.width / r.height else 1

/-- Sum of all room areas (`sum(room.area for room in self.rooms)`). -/
def FloorPlan.totalArea (p : FloorPlan α) : α := (p.rooms.map Room.area).sum

/-- `FloorPlan.total_living_area`: areas excluding garage and storage rooms. -/
def FloorPlan.totalLivingArea (p : FloorPlan α) : α :=
  ((p.rooms.filter fun r =>
    !(r.roomType == RoomType.garage || r.roomType == RoomType.storage)).map Room.area).sum

/-- `FloorPlan.efficiency_ratio`: `living / total * 100` guarded by `total > 0`. -/
def FloorPlan.efficiencyPct (p : FloorPlan α) : α :=
  if p.totalArea > 0 then p.totalLivingArea / p.totalArea * 100 else 0

/-- `FloorPlan.get_rooms_by_type`. -/
def FloorPlan.roomsByType (p : FloorPlan α) (t : RoomType) : List (Room α) :=
  p.rooms.filter fun r => r.roomType == t

/-- A building-code violation, identified by its `severity`, `room` and
`code` fields (the formatted `message`/`recommendation` strings are
presentation-only and omitted). -/
structure Violation where
  severity : String
  room : String
  code : String
deriving DecidableEq

/-- `_validate_room` from `code_validator.py`: minimum area by room type,
aspect-ratio guideline, and bedroom egress-window rules.  The numeric
minimums (70, 35, 50, 120, 5.7) come from `Config.BUILDING_CODES`. -/
def validateRoom (r : Room α) : List Violation :=
  (if r.roomType = RoomType.bedroom ∨ r.roomType = RoomType.masterBedroom then
    if r.area < 70 then [⟨"critical", r.name, "IRC R304.1"⟩] else []
  else if r.roomType = RoomType.bathroom ∨ r.roomType = RoomType.masterBathroom then
    if r.area < 35 then [⟨"critical", r.name, "IRC R307"⟩] else []
  else if r.roomType = RoomType.kitchen then
    if r.area < 50 then [⟨"warning", r.name, "IRC R305"⟩] else []
  else if r.roomType = RoomType.living then
    if r.area < 120 then [⟨"warning", r.name, "Best Practice"⟩] else []
  else [])
  ++ (if r.aspect > 3 then [⟨"info", r.name, "Design Guideline"⟩] else [])
  ++ (if r.roomType = RoomType.bedroom ∨ r.roomType = RoomType.masterBedroom then
        let egressWindows := r.windows.filter fun w => w.kind == "egress"
        if egressWindows = [] then [⟨"critical", r.name, "IRC R310.1"⟩]
        else egressWindows.filterMap fun w =>
          if w.width * w.height < 57/10 then some ⟨"critical", r.name, "IRC R310.2.1"⟩
          else none
      else [])

/-- Count of bedroom-type rooms (`bedroom` plus `master_bedroom`). -/
def FloorPlan.bedroomRoomCount (p : FloorPlan α) : ℕ :=
  (p.roomsByType RoomType.bedroom).length + (p.roomsByType RoomType.masterBedroom).length

/-- Count of bathroom-type rooms (`bathroom` plus `master_bathroom`). -/
def FloorPlan.bathroomRoomCount (p : FloorPlan α) : ℕ :=
  (p.roomsByType RoomType.bathroom).length + (p.roomsByType RoomType.masterBathroom).length

/-- `_validate_overall_plan` (assuming `total_sqft ≠ 0`; the caller
`validateFloorPlan` models the `ZeroDivisionError` of the variance
computation when it is `0`). -/
def validateOverallPlan (p : FloorPlan α) : List Violation :=
  (if |p.totalArea - p.totalSqFt| / p.totalSqFt * 100 > 10 then
    [⟨"warning", "Overall Plan", "Design Consistency"⟩] else [])
  ++ (if p.efficiencyPct < 75 then [⟨"info", "Overall Plan", "Space Efficiency"⟩] else [])
  ++ (if p.bedroomRoomCount < p.bedrooms then
    [⟨"critical", "Overall Plan", "Design Requirement"⟩] else [])
  ++ (if p.bathroomRoomCount < p.bathrooms then
    [⟨"critical", "Overall Plan", "Design Requirement"⟩] else [])

/-- `_validate_egress`: some living/kitchen/garage room must have a
non-empty doors list, else a plan-level critical violation. -/
def validateEgress (p : FloorPlan α) : List Violation :=
  if ∃ r ∈ p.rooms,
      (r.roomType = RoomType.living ∨ r.roomType = RoomType.kitchen ∨
        r.roomType = RoomType.garage) ∧ r.doors ≠ [] then []
  else [⟨"critical", "Overall Plan", "IRC R311.2"⟩]

/-- `_validate_circulation`: hallway advisory for >2 bedrooms, and the
3-ft minimum hallway width rule. -/
def validateCirculation (p : FloorPlan α) : List Violation :=
  (if 2 < (p.rooms.filter fun r =>
      r.roomType == RoomType.bedroom || r.roomType == RoomType.masterBedroom).length ∧
      p.roomsByType RoomType.hallway = [] then
    [⟨"info", "Overall Plan", "Design Guideline"⟩] else [])
  ++ p.rooms.filterMap fun r =>
    if r.roomType = RoomType.hallway ∧ min r.width r.height < 3 then
      some ⟨"critical", r.name, "IRC R311.6"⟩
    else none

/-- `compliance_score = max(0, 100 - critical*20 - warning*5 - info*1)`. -/
def complianceScoreZ (c w i : ℕ) : ℤ :=
  max 0 (100 - (c : ℤ) * 20 - (w : ℤ) * 5 - (i : ℤ) * 1)

/-- `_calculate_grade` from `code_validator.py`. -/
def gradeOf (score : ℚ) : String :=
  if 95 ≤ score then "A+"
  else if 90 ≤ score then "A"
  else if 85 ≤ score then "B+"
  else if 80 ≤ score then "B"
  else if 75 ≤ score then "C+"
  else if 70 ≤ score then "C"
  else if 60 ≤ score then "D"
  else "F"

/-- The dictionary returned by `validate_floor_plan`. -/
structure ValidationResult where
  compliant : Bool
  score : ℤ
  violations : List Violation
  criticalCount : ℕ
  warningCount : ℕ
  infoCount : ℕ
  totalCount : ℕ
  grade : String
deriving DecidableEq

/-- All violations accumulated by the four validation passes, in order. -/
def allViolations (p : FloorPlan α) : List Violation :=
  (p.rooms.map validateRoom).flatten ++ validateOverallPlan p
    ++ validateEgress p ++ validateCirculation p

/-- `sum(1 for v in violations if v.severity == s)`. -/
def countSev (s : String) (l : List Violation) : ℕ := l.countP fun v => v.severity == s

/-- The result dictionary assembled at the end of `validate_floor_plan`. -/
def mkValidationResult (violations : List Violation) : ValidationResult :=
  { compliant := countSev "critical" violations == 0
    score := complianceScoreZ (countSev "critical" violations)
      (countSev "warning" violations) (countSev "info" violations)
    violations := violations
    criticalCount := countSev "critical" violations
    warningCount := countSev "warning" violations
    infoCount := countSev "info" violations
    totalCount := violations.length
    grade := gradeOf ((complianceScoreZ (countSev "critical" violations)
      (countSev "warning" violations) (countSev "info" violations) : ℤ) : ℚ) }

/-- `validate_floor_plan`: `none` models the `ZeroDivisionError` raised by
the variance computation when `total_sqft` is `0`; otherwise the full
result dictionary. -/
def validateFloorPlan (p : FloorPlan α) : Option ValidationResult :=
  if p.totalSqFt = 0 then none else some (mkValidationResult (allViolations p))

/-- The per-style share table of `_calculate_space_allocation`; unknown
(lower-cased) styles fall back to the `'modern'` row. -/
structure Allocation (α : Type) where
  living : α
  kitchen : α
  dining : α
  bedrooms : α
  bathrooms : α
  circulation : α
  storage : α
deriving DecidableEq

/-- Sum of the seven allocation categories. -/
def Allocation.total (a : Allocation α) : α :=
  a.living + a.kitchen + a.dining + a.bedrooms + a.bathrooms + a.circulation + a.storage

/-- `style_allocations` table (keyed by the lower-cased style). -/
def styleShares (styleLower : String) : Allocation α :=
  if styleLower = "traditional" then
    ⟨22/100, 12/100, 12/100, 32/100, 12/100, 8/100, 2/100⟩
  else if styleLower = "ranch" then
    ⟨28/100, 16/100, 8/100, 28/100, 10/100, 8/100, 2/100⟩
  else if styleLower = "luxury" then
    ⟨30/100, 18/100, 10/100, 25/100, 12/100, 3/100, 2/100⟩
  else
    ⟨25/100, 15/100, 10/100, 30/100, 10/100, 8/100, 2/100⟩

/-- `_calculate_space_allocation`: style shares, bedroom/bathroom
adjustments, then conversion to square feet. -/
def spaceAllocation (totalSqFt : α) (bedrooms bathrooms : ℕ) (style : String) : Allocation α :=
  let base : Allocation α := styleShares (lowerString style)
  let a1 := if 3 < bedrooms then
      { base with bedrooms := base.bedrooms + 5/100
                  living := base.living - 3/100
                  circulation := base.circulation - 2/100 }
    else base
  let a2 := if 2 < bathrooms then
      { a1 with bathrooms := a1.bathrooms + 3/100
                storage := a1.storage - 3/100 }
    else a1
  { living := totalSqFt * a2.living
    kitchen := totalSqFt * a2.kitchen
    dining := totalSqFt * a2.dining
    bedrooms := totalSqFt * a2.bedrooms
    bathrooms := totalSqFt * a2.bathrooms
    circulation := totalSqFt * a2.circulation
    storage := totalSqFt * a2.storage }

/-- The adjusted shares before conversion to square feet (used to state the
share-sum property of §4.1). -/
def adjustedShares (bedrooms bathrooms : ℕ) (style : String) : Allocation α :=
  let base : Allocation α := styleShares (lowerString style)
  let a1 := if 3 < bedrooms then
      { base with bedrooms := base.bedrooms + 5/100
                  living := base.living - 3/100
                  circulation := base.circulation - 2/100 }
    else base
  if 2 < bathrooms then
    { a1 with bathrooms := a1.bathrooms + 3/100
              storage := a1.storage - 3/100 }
  else a1

/-- A room request produced by `_generate_room_list`. -/
structure RoomRequest (α : Type) where
  name : String
  roomType : RoomType
  area : α
  priority : ℤ
deriving DecidableEq

/-- The `special_rooms` request dictionary. -/
structure SpecialRooms where
  office : Bool
  laundry : Bool
  garage : Bool
  garageCars : ℕ
  temple : Bool
deriving DecidableEq

/-- `_generate_room_list`. -/
def generateRoomList (alloc : Allocation α) (bedrooms bathrooms : ℕ)
    (specialRooms : Option SpecialRooms) : List (RoomRequest α) :=
  [⟨"Living Room", RoomType.living, alloc.living, 10⟩,
   ⟨"Kitchen", RoomType.kitchen, alloc.kitchen, 9⟩]
  ++ (if alloc.dining > 80 then [⟨"Dining Room", RoomType.dining, alloc.dining, 7⟩] else [])
  ++ ((List.range bedrooms).map fun i =>
      if i = 0 then
        ⟨"Master Bedroom", RoomType.masterBedroom, alloc.bedrooms / (bedrooms : α) * (14/10), 8⟩
      else
        ⟨"Bedroom " ++ toString (i + 1), RoomType.bedroom,
          alloc.bedrooms / (bedrooms : α) * (9/10), 5⟩)
  ++ ((List.range bathrooms).map fun i =>
      if i = 0 then
        ⟨"Master Bathroom", RoomType.masterBathroom,
          alloc.bathrooms / (bathrooms : α) * (13/10), 7⟩
      else
        ⟨"Bathroom " ++ toString (i + 1), RoomType.bathroom,
          alloc.bathrooms / (bathrooms : α), 4⟩)
  ++ (match specialRooms with
      | none => []
      | some sr =>
        (if sr.office then [⟨"Home Office", RoomType.office, 120, 6⟩] else [])
        ++ (if sr.laundry then [⟨"Laundry Room", RoomType.laundry, 60, 3⟩] else [])
        ++ (if sr.garage then
              [⟨toString sr.garageCars ++ "-Car Garage", RoomType.garage,
                (sr.garageCars : α) * 200, 6⟩] else [])
        ++ (if sr.temple then [⟨"Prayer Room", RoomType.temple, 80, 5⟩] else []))

/-- Insert a request into a descending-priority-sorted list, after any
request of equal priority (preserves the stability of Python's sort). -/
def insertByPriorityDesc (r : RoomRequest α) : List (RoomRequest α) → List (RoomRequest α)
  | [] => [r]
  | s :: rest =>
    if s.priority < r.priority then r :: s :: rest else s :: insertByPriorityDesc r rest

/-- `rooms_to_create.sort(key=lambda x: x['priority'], reverse=True)`:
stable descending sort on priority. -/
def sortByPriorityDesc (l : List (RoomRequest α)) : List (RoomRequest α) :=
  l.foldl (fun acc r => insertByPriorityDesc r acc) []

end GenericField

/-! ### Knowledge base tables (`ArchitecturalKnowledge`) -/

/-- `ADJACENCY_MATRIX` with the double `.get` defaulting of
`_calculate_position_score`: pairs absent from the (outer or inner) table
score the default preference `5`. -/
noncomputable def adjacencyPref : RoomType → RoomType → ℝ
  | RoomType.living, RoomType.dining => 10
  | RoomType.living, RoomType.kitchen => 8
  | RoomType.living, RoomType.office => 6
  | RoomType.living, RoomType.bedroom => 2
  | RoomType.living, RoomType.garage => 3
  | RoomType.kitchen, RoomType.dining => 10
  | RoomType.kitchen, RoomType.living => 8
  | RoomType.kitchen, RoomType.pantry => 9
  | RoomType.kitchen, RoomType.garage => 6
  | RoomType.kitchen, RoomType.bedroom => 1
  | RoomType.masterBedroom, RoomType.masterBathroom => 10
  | RoomType.masterBedroom, RoomType.living => 2
  | RoomType.masterBedroom, RoomType.kitchen => 1
  | RoomType.bedroom, RoomType.bathroom => 8
  | RoomType.bedroom, RoomType.hallway => 7
  | RoomType.bedroom, RoomType.living => 2
  | RoomType.bedroom, RoomType.kitchen => 1
  | RoomType.garage, RoomType.mudroom => 10
  | RoomType.garage, RoomType.laundry => 8
  | RoomType.garage, RoomType.kitchen => 6
  | RoomType.garage, RoomType.bedroom => 1
  | _, _ => 5

/-- `ORIENTATION_PREFERENCES` with the `[SOUTH]` default of
`_find_best_position`. -/
def orientationPrefs : RoomType → List Orientation
  | RoomType.living => [Orientation.south, Orientation.southwest]
  | RoomType.kitchen => [Orientation.east, Orientation.southeast]
  | RoomType.masterBedroom => [Orientation.east, Orientation.northeast]
  | RoomType.bedroom => [Orientation.east, Orientation.northeast]
  | RoomType.dining => [Orientation.south, Orientation.east]
  | RoomType.office => [Orientation.north, Orientation.northeast]
  | RoomType.bathroom => [Orientation.north, Orientation.west]
  | RoomType.garage => [Orientation.north, Orientation.northwest]
  | _ => [Orientation.south]

/-- `ASPECT_RATIOS` with the `1.2` default of `_intelligent_room_placement`. -/
noncomputable def idealAspect : RoomType → ℝ
  | RoomType.living => 15/10
  | RoomType.kitchen => 13/10
  | RoomType.dining => 14/10
  | RoomType.bedroom => 12/10
  | RoomType.masterBedroom => 13/10
  | RoomType.bathroom => 11/10
  | RoomType.office => 12/10
  | RoomType.garage => 2
  | _ => 12/10

/-- `ROOM_COLORS` with the `'#ffffff'` default. -/
def roomColor : RoomType → String
  | RoomType.living => "#a8d5ff"
  | RoomType.dining => "#ffd9a8"
  | RoomType.kitchen => "#ffb6a8"
  | RoomType.bedroom => "#c8ffc8"
  | RoomType.masterBedroom => "#b3ffb3"
  | RoomType.bathroom => "#e6d5ff"
  | RoomType.masterBathroom => "#d4bdff"
  | RoomType.office => "#fff4a8"
  | RoomType.garage => "#d4d4d4"
  | RoomType.laundry => "#c4e5f4"
  | RoomType.hallway => "#f5f5f5"
  | RoomType.storage => "#e0e0e0"
  | RoomType.pantry => "#ffe4cc"
  | RoomType.mudroom => "#e8dcc4"
  | RoomType.temple => "#fff0e6"
  | _ => "#ffffff"

/-! ### Python numeric primitives over the reals -/

/-- Python `round` on a real value: round-half-to-even (banker's rounding). -/
noncomputable def pyRound (x : ℝ) : ℤ :=
  if Int.fract x = 1/2 then (if Even ⌊x⌋ then ⌊x⌋ else ⌊x⌋ + 1) else round x

/-- Python `round(x, 2)`. -/
noncomputable def pyRound2 (x : ℝ) : ℝ := ((pyRound (x * 100) : ℤ) : ℝ) / 100

/-- Python `int()` conversion: truncation toward zero. -/
noncomputable def pyTrunc (x : ℝ) : ℤ := if 0 ≤ x then ⌊x⌋ else -⌊-x⌋

/-- Python `range(a, b, step)` for a positive `step`. -/
def pyRange (a b step : ℤ) : List ℤ :=
  (List.range (if b ≤ a then 0 else ((b - a - 1) / step + 1).toNat)).map fun k => a + step * k

/-! ### `_calculate_building_envelope` -/

/-- The `max_width`/`max_depth` caps: `none` is `float('inf')` (no lot),
otherwise 80% of the supplied lot dimension. -/
noncomputable def lotCaps : Option (ℝ × ℝ) → Option ℝ × Option ℝ
  | none => (none, none)
  | some (lw, ld) => (some (lw * (8/10)), some (ld * (8/10)))

/-- `min(x, cap)` where `cap = none` stands for `float('inf')`. -/
noncomputable def minCap (x : ℝ) : Option ℝ → ℝ
  | none => x
  | some m => min x m

/-- `x < cap` where `cap = none` stands for `float('inf')`. -/
noncomputable def belowCap (x : ℝ) : Option ℝ → Bool
  | none => true
  | some m => decide (x < m)

/-- The `while width * depth < total_sqft` correction loop, with explicit
fuel; fuel `0` returns the current dimensions (the fuel passed by
`buildingEnvelopePre` is proved sufficient for positive inputs). -/
noncomputable def envLoop (totalSqFt : ℝ) (maxW : Option ℝ) : ℕ → ℝ → ℝ → ℝ × ℝ
  | 0, w, d => (w, d)
  | n + 1, w, d =>
    if w * d < totalSqFt then
      if belowCap w maxW then envLoop totalSqFt maxW n (w + 5) d
      else envLoop totalSqFt maxW n w (d + 5)
    else (w, d)

/-- Starting `width`/`depth` of the envelope calculation:
`width = min(sqrt(total_sqft * 1.3), max_width)`,
`depth = min(total_sqft / width, max_depth)`. -/
noncomputable def envStart (totalSqFt : ℝ) (lot : Option (ℝ × ℝ)) : ℝ × ℝ :=
  let caps := lotCaps lot
  let w := minCap (Real.sqrt (totalSqFt * (13/10))) caps.1
  (w, minCap (totalSqFt / w) caps.2)

/-- Fuel sufficient for `envLoop` whenever the starting dimensions are
positive. -/
noncomputable def envFuel (totalSqFt w d : ℝ) : ℕ := ⌈totalSqFt / (5 * min w d)⌉₊ + 1

/-- The envelope dimensions after the correction loop, before the final
rounding to 2 decimals. -/
noncomputable def buildingEnvelopePre (totalSqFt : ℝ) (lot : Option (ℝ × ℝ)) : ℝ × ℝ :=
  let s := envStart totalSqFt lot
  envLoop totalSqFt (lotCaps lot).1 (envFuel totalSqFt s.1 s.2) s.1 s.2

/-- `_calculate_building_envelope`: correction loop then `round(_, 2)` on
both dimensions. -/
noncomputable def buildingEnvelope (totalSqFt : ℝ) (lot : Option (ℝ × ℝ)) : ℝ × ℝ :=
  let p := buildingEnvelopePre totalSqFt lot
  (pyRound2 p.1, pyRound2 p.2)

/-! ### `_intelligent_room_placement` and its helpers -/

/-- An entry of the `occupied` list: the tuple `(x, y, width, height)`. -/
structure PlacedRect where
  x : ℝ
  y : ℝ
  w : ℝ
  h : ℝ

/-- Room dimensions of one request: area floored at `MIN_ROOM_SIZE = 50`,
`height = sqrt(area / aspect)`, `width = area / height`, both snapped to the
10-ft grid with Python `round`; returns `(width, height, actual_area)`. -/
noncomputable def roomDims (t : RoomType) (reqArea : ℝ) : ℝ × ℝ × ℝ :=
  let area := max reqArea 50
  let h0 := Real.sqrt (area / idealAspect t)
  let w0 := area / h0
  let w := ((pyRound (w0 / 10) : ℤ) : ℝ) * 10
  let h := ((pyRound (h0 / 10) : ℤ) : ℝ) * 10
  (w, h, w * h)

/-- `_is_position_available`: the margin-expanded rectangle must miss every
occupied rectangle (5-ft margin). -/
def isAvailable (x y w h : ℝ) (occupied : List PlacedRect) : Prop :=
  ∀ o ∈ occupied,
    x + w + 5 < o.x ∨ x - 5 > o.x + o.w ∨ y + h + 5 < o.y ∨ y - 5 > o.y + o.h

noncomputable instance (x y w h : ℝ) (occupied : List PlacedRect) :
    Decidable (isAvailable x y w h occupied) := by
  unfold isAvailable; infer_instance

/-- `_calculate_position_score`: adjacency-weighted score over already
placed rooms within 100 ft of the candidate's center. -/
noncomputable def positionScore (t : RoomType) (x y w h : ℝ) (placed : List (Room ℝ)) : ℝ :=
  placed.foldl
    (fun s pr =>
      let dist := Real.sqrt ((x + w/2 - pr.centerX)^2 + (y + h/2 - pr.centerY)^2)
      if dist < 100 then s + adjacencyPref t pr.roomType * (100 - dist) / 100 else s)
    0

/-- The candidate `(x, y)` scan of `_find_best_position` for one
orientation, in Python iteration order. -/
noncomputable def candidatePositions (o : Orientation) (w h bw bd : ℝ) : List (ℝ × ℝ) :=
  match o with
  | Orientation.south | Orientation.southeast | Orientation.southwest =>
    (pyRange 50 (pyTrunc (bw - w)) 50).map fun xi => ((xi : ℝ), (50 : ℝ))
  | Orientation.north | Orientation.northeast | Orientation.northwest =>
    (pyRange 50 (pyTrunc (bw - w)) 50).map fun xi => ((xi : ℝ), bd - h - 50)
  | Orientation.east =>
    (pyRange 50 (pyTrunc (bd - h)) 50).map fun yi => ((50 : ℝ), (yi : ℝ))
  | Orientation.west =>
    (pyRange 50 (pyTrunc (bd - h)) 50).map fun yi => (bw - w - 50, (yi : ℝ))

/-- Search state of `_find_best_position`: best position, best score and
best orientation (initially `(50, 50)`, `-1`, `SOUTH`). -/
structure SearchState where
  x : ℝ
  y : ℝ
  score : ℝ
  orient : Orientation

/-- One candidate step of the search: keep the candidate iff it is
available and strictly beats the best score so far. -/
noncomputable def searchStep (t : RoomType) (w h : ℝ) (occupied : List PlacedRect)
    (placed : List (Room ℝ)) (o : Orientation) (st : SearchState) (pos : ℝ × ℝ) :
    SearchState :=
  if isAvailable pos.1 pos.2 w h occupied then
    let sc := positionScore t pos.1 pos.2 w h placed
    if sc > st.score then ⟨pos.1, pos.2, sc, o⟩ else st
  else st

/-- `_find_first_available`: dense 25-ft raster scan (y outer, x inner),
first available cell, `(50, 50)` as last resort. -/
noncomputable def findFirstAvailable (w h bw bd : ℝ) (occupied : List PlacedRect) : ℝ × ℝ :=
  let cells := (pyRange 50 (pyTrunc (bd - h)) 25).flatMap fun yi =>
    (pyRange 50 (pyTrunc (bw - w)) 25).map fun xi => ((xi : ℝ), (yi : ℝ))
  match cells.find? (fun p => decide (isAvailable p.1 p.2 w h occupied)) with
  | some p => p
  | none => (50, 50)

/-- `_find_best_position`: scan all preferred orientations; if no available
candidate was found (`best_score == -1`) fall back to
`_find_first_available` (keeping the default SOUTH orientation). -/
noncomputable def findBestPosition (t : RoomType) (w h bw bd : ℝ)
    (occupied : List PlacedRect) (placed : List (Room ℝ)) : ℝ × ℝ × Orientation :=
  let init : SearchState := ⟨50, 50, -1, Orientation.south⟩
  let best := (orientationPrefs t).foldl
    (fun st o => (candidatePositions o w h bw bd).foldl (searchStep t w h occupied placed o) st)
    init
  if best.score = -1 then
    let fb := findFirstAvailable w h bw bd occupied
    (fb.1, fb.2, best.orient)
  else (best.x, best.y, best.orient)

/-- The placement loop of `_intelligent_room_placement`, producing rooms in
placement order while accumulating the `occupied` and `placed_rooms`
lists. -/
noncomputable def placeRoomsAux (bw bd : ℝ) :
    List (RoomRequest ℝ) → List PlacedRect → List (Room ℝ) → List (Room ℝ)
  | [], _, _ => []
  | req :: rest, occupied, placed =>
    let dims := roomDims req.roomType req.area
    let pos := findBestPosition req.roomType dims.1 dims.2.1 bw bd occupied placed
    let room : Room ℝ :=
      { name := req.name
        roomType := req.roomType
        x := pos.1
        y := pos.2.1
        width := dims.1
        height := dims.2.1
        area := dims.2.2
        color := roomColor req.roomType
        orientation := some pos.2.2
        floorLevel := 1
        doors := []
        windows := []
        adjacentRooms := []
        priority := req.priority }
    room :: placeRoomsAux bw bd rest (occupied ++ [⟨pos.1, pos.2.1, dims.1, dims.2.1⟩])
      (placed ++ [room])

/-- `_intelligent_room_placement`: stable descending priority sort, then
the placement loop. -/
noncomputable def placeRooms (reqs : List (RoomRequest ℝ)) (bw bd : ℝ) : List (Room ℝ) :=
  placeRoomsAux bw bd (sortByPriorityDesc reqs) [] []

/-! ### `_optimize_layout` and `_add_openings` -/

/-- Center-to-center Euclidean distance between two rooms. -/
noncomputable def roomDistance (a b : Room ℝ) : ℝ :=
  Real.sqrt ((a.centerX - b.centerX)^2 + (a.centerY - b.centerY)^2)

/-- The adjacency list of room `i` after `_optimize_layout`'s double loop:
append the name of every other room within 50 ft (center distance) unless
already present. -/
noncomputable def adjacentAfter (rooms : List (Room ℝ)) (i : ℕ) (room : Room ℝ) : List String :=
  rooms.enum.foldl
    (fun acc jo =>
      if i ≠ jo.1 ∧ roomDistance room jo.2 < 50 ∧ jo.2.name ∉ acc then acc ++ [jo.2.name]
      else acc)
    room.adjacentRooms

/-- `_optimize_layout`: annotate every room's `adjacent_rooms`. -/
noncomputable def optimizeLayout (p : FloorPlan ℝ) : FloorPlan ℝ :=
  { p with rooms := p.rooms.enum.map fun ir =>
      { ir.2 with adjacentRooms := adjacentAfter p.rooms ir.1 ir.2 } }

/-- First `if` of `_add_openings`: bedrooms and master bedrooms get a 3-ft
entry door centered on the `y` edge and a 4 x 4.5 `egress` window on the
`y + height` edge at 70% of the width. -/
noncomputable def addBedroomOpenings (r : Room ℝ) : Room ℝ :=
  if r.roomType = RoomType.bedroom ∨ r.roomType = RoomType.masterBedroom then
    { r with doors := r.doors ++ [⟨r.x + r.width / 2, r.y, 3, "entry"⟩]
             windows := r.windows ++ [⟨r.x + r.width * (7/10), r.y + r.height, 4, 9/2, "egress"⟩] }
  else r

/-- Second `if` of `_add_openings`: living rooms get a 6-ft `picture`
window at 1/3 width and a 4-ft `casement` window at 2/3 width, both on the
`y + height` edge. -/
noncomputable def addLivingWindows (r : Room ℝ) : Room ℝ :=
  if r.roomType = RoomType.living then
    { r with windows := r.windows ++
        [⟨r.x + r.width / 3, r.y + r.height, 6, 5, "picture"⟩,
         ⟨r.x + r.width * 2 / 3, r.y + r.height, 4, 5, "casement"⟩] }
  else r

/-- `_add_openings` on one room: the two `if`s in sequence. -/
noncomputable def addOpeningsRoom (r : Room ℝ) : Room ℝ :=
  addLivingWindows (addBedroomOpenings r)

/-- `_add_openings` over the whole plan. -/
noncomputable def addOpenings (p : FloorPlan ℝ) : FloorPlan ℝ :=
  { p with rooms := p.rooms.map addOpeningsRoom }

/-- The floor plan as assembled by `generate_floor_plan` just before
`_optimize_layout`: placed rooms plus the envelope as lot dimensions. -/
noncomputable def basePlan (totalSqFt : ℝ) (bedrooms bathrooms : ℕ)
    (style : String) (specialRooms : Option SpecialRooms) (lot : Option (ℝ × ℝ)) :
    FloorPlan ℝ :=
  { totalSqFt := totalSqFt
    rooms := placeRooms
      (generateRoomList (spaceAllocation totalSqFt bedrooms bathrooms style) bedrooms
        bathrooms specialRooms)
      (buildingEnvelope totalSqFt lot).1 (buildingEnvelope totalSqFt lot).2
    bedrooms := bedrooms
    bathrooms := bathrooms
    floors := 1
    style := style
    lotWidth := (buildingEnvelope totalSqFt lot).1
    lotDepth := (buildingEnvelope totalSqFt lot).2 }

/-- `generate_floor_plan`: allocation, room list, envelope, placement,
adjacency annotation, openings. -/
noncomputable def generateFloorPlan (totalSqFt : ℝ) (bedrooms bathrooms : ℕ)
    (style : String) (specialRooms : Option SpecialRooms) (lot : Option (ℝ × ℝ)) :
    FloorPlan ℝ :=
  addOpenings (optimizeLayout (basePlan totalSqFt bedrooms bathrooms style specialRooms lot))

/-- Geometry projection of a room (used to state geometry-only facts). -/
def roomGeom (r : Room ℝ) : RoomType × ℝ × ℝ × ℝ × ℝ :=
  (r.roomType, r.x, r.y, r.width, r.height)

/-- The separation test of `_is_position_available` as a relation between
two rectangles: the 5-ft margin-expanded boxes do not intersect. -/
def rectSeparated (a b : PlacedRect) : Prop :=
  a.x + a.w + 5 < b.x ∨ a.x - 5 > b.x + b.w ∨ a.y + a.h + 5 < b.y ∨ a.y - 5 > b.y + b.h

/-- Rectangle of a placed room. -/
def roomRect (r : Room ℝ) : PlacedRect := ⟨r.x, r.y, r.width, r.height⟩

/-! ### Concrete inputs used by the claim theorems -/

/-- A bedroom of area 80 sq ft with no windows. -/
def roomB80 : Room ℚ :=
  { name := "Bedroom 2", roomType := RoomType.bedroom, x := 0, y := 0,
    width := 10, height := 8, area := 80, color := "#ffffff", orientation := none,
    floorLevel := 1, doors := [], windows := [], adjacentRooms := [], priority := 5 }

/-- A plan containing only `roomB80`. -/
def planB80 : FloorPlan ℚ :=
  { totalSqFt := 80, rooms := [roomB80], bedrooms := 1, bathrooms := 0,
    floors := 1, style := "modern", lotWidth := 0, lotDepth := 0 }

/-- `planB80` with a 4 x 1 egress window added to the bedroom. -/
def planB80W : FloorPlan ℚ :=
  { planB80 with rooms := [{ roomB80 with windows := [⟨0, 0, 4, 1, "egress"⟩] }] }

/-- A `FloorPlan` value with `total_sqft = 0`, as reconstructed by the
`/validate` route for a request without a `total_sqft` field
(`data.get('total_sqft', 0)`). -/
def planZeroTotal : FloorPlan ℚ :=
  { totalSqFt := 0, rooms := [], bedrooms := 0, bathrooms := 0,
    floors := 1, style := "modern", lotWidth := 0, lotDepth := 0 }

/-- A small plan with a nonzero target and no rooms (used to exercise the
validator's result record at a concrete input). -/
def planEmpty100 : FloorPlan ℚ :=
  { totalSqFt := 100, rooms := [], bedrooms := 0, bathrooms := 0,
    floors := 1, style := "modern", lotWidth := 0, lotDepth := 0 }

/-- The plan generated for the common-case input of §8:
`totalSqFt = 2000`, 3 bedrooms, 2 bathrooms, style `"modern"`, no special
rooms, no lot. -/
noncomputable def plan2000 : FloorPlan ℝ :=
  generateFloorPlan 2000 3 2 "modern" none none

/-- A room named "A" centered at (5, 5) whose `adjacent_rooms` list already
(stale) contains "B". -/
noncomputable def roomAdjA : Room ℝ :=
  { name := "A", roomType := RoomType.office, x := 0, y := 0,
    width := 10, height := 10, area := 100, color := "#ffffff", orientation := none,
    floorLevel := 1, doors := [], windows := [], adjacentRooms := ["B"], priority := 5 }

/-- A room named "B" centered at (1005, 5), 1000 ft away from "A", with an
empty `adjacent_rooms` list. -/
noncomputable def roomAdjB : Room ℝ :=
  { name := "B", roomType := RoomType.office, x := 1000, y := 0,
    width := 10, height := 10, area := 100, color := "#ffffff", orientation := none,
    floorLevel := 1, doors := [], windows := [], adjacentRooms := [], priority := 5 }

/-- A plan whose two far-apart rooms have pairwise distinct names but a
stale adjacency entry on "A". -/
noncomputable def planAdjStale : FloorPlan ℝ :=
  { totalSqFt := 200, rooms := [roomAdjA, roomAdjB], bedrooms := 0, bathrooms := 0,
    floors := 1, style := "modern", lotWidth := 0, lotDepth := 0 }

/-- Room "A" with an empty adjacency list. -/
noncomputable def freshA : Room ℝ := { roomAdjA with adjacentRooms := [] }

/-- Room "B" moved next to "A" (coincident rectangles), empty adjacency
list. -/
noncomputable def freshB : Room ℝ := { roomAdjB with x := 0 }

/-- A plan with two coincident rooms ("A" and "B") and empty adjacency
lists (used as the witness input of the adjacency-symmetry theorem). -/
noncomputable def planAdjFresh : FloorPlan ℝ :=
  { totalSqFt := 200, rooms := [freshA, freshB],
    bedrooms := 0, bathrooms := 0, floors := 1, style := "modern",
    lotWidth := 0, lotDepth := 0 }

/-- Room "A" of `planAdjFresh` after the adjacency-annotation pass. -/
noncomputable def freshAAfter : Room ℝ :=
  { freshA with adjacentRooms := adjacentAfter planAdjFresh.rooms 0 freshA }

/-- Room "B" of `planAdjFresh` after the adjacency-annotation pass. -/
noncomputable def freshBAfter : Room ℝ :=
  { freshB with adjacentRooms := adjacentAfter planAdjFresh.rooms 1 freshB }

/-- Well-formedness of an optional lot: supplied lot dimensions are
positive (callers pass positive lot sizes; `none` means no lot). -/
def lotOk : Option (ℝ × ℝ) → Prop
  | none => True
  | some (lw, ld) => 0 < lw ∧ 0 < ld

/-- The property claimed by C7 *as stated*: every living room's two windows
(6-ft picture at 1/3 width, 4-ft casement at 2/3 width) sit on the edge at
the room's `y` coordinate. -/
def c7ClaimPred (r : Room ℝ) : Prop :=
  r.roomType ≠ RoomType.living ∨
    r.windows = [⟨r.x + r.width / 3, r.y, 6, 5, "picture"⟩,
                 ⟨r.x + r.width * 2 / 3, r.y, 4, 5, "casement"⟩]

/-- The first room placed for the §8 common-case input: the Living Room,
30 x 20 at the fallback position (50, 50). -/
noncomputable def livingPlaced2000 : Room ℝ :=
  { name := "Living Room", roomType := RoomType.living, x := 50, y := 50,
    width := 30, height := 20, area := 600, color := "#a8d5ff",
    orientation := some Orientation.south, floorLevel := 1,
    doors := [], windows := [], adjacentRooms := [], priority := 10 }

/-- The second room placed for the §8 common-case input: the Kitchen,
20 x 20, also at the fallback position (50, 50). -/
noncomputable def kitchenPlaced2000 : Room ℝ :=
  { name := "Kitchen", roomType := RoomType.kitchen, x := 50, y := 50,
    width := 20, height := 20, area := 400, color := "#ffb6a8",
    orientation := some Orientation.south, floorLevel := 1,
    doors := [], windows := [], adjacentRooms := [], priority := 9 }

/-- The validator's result on `planEmpty100`. -/
def resEmpty100 : ValidationResult :=
  { compliant := false
    score := 74
    violations := [⟨"warning", "Overall Plan", "Design Consistency"⟩,
                   ⟨"info", "Overall Plan", "Space Efficiency"⟩,
                   ⟨"critical", "Overall Plan", "IRC R311.2"⟩]
    criticalCount := 1
    warningCount := 1
    infoCount := 1
    totalCount := 3
    grade := "C" }

/-! ## Helper lemmas -/

section ShareLemmas

variable {α : Type} [LinearOrderedField α]

/-- Every row of the style table has shares summing to 1. -/
lemma styleShares_total (s : String) : (styleShares s : Allocation α).total = 1 := by
  unfold styleShares
  split_ifs <;> simp [Allocation.total] <;> norm_num

/-- The bedroom/bathroom adjustments are zero-sum, so the adjusted shares
still sum to 1. -/
lemma adjustedShares_total (bed bath : ℕ) (s : String) :
    (adjustedShares bed bath s : Allocation α).total = 1 := by
  have h := styleShares_total (α := α) (lowerString s)
  unfold adjustedShares
  split_ifs <;> simp [Allocation.total] at h ⊢ <;> linarith

/-- Converting shares to square feet scales the total by `totalSqFt`. -/
lemma spaceAllocation_total_eq (T : α) (bed bath : ℕ) (s : String) :
    (spaceAllocation T bed bath s).total = T * (adjustedShares bed bath s : Allocation α).total := by
  unfold spaceAllocation adjustedShares
  split_ifs <;> simp [Allocation.total] <;> ring

end ShareLemmas

section NumericPrimitives

/-- Python `round` agrees with the floor of `x + 1/2` away from exact
halves (lower case). -/
lemma pyRound_eq_of_lt_half {x : ℝ} {n : ℤ} (h1 : (n : ℝ) ≤ x) (h2 : x < (n : ℝ) + 1/2) :
    pyRound x = n := by
  have hfl : ⌊x⌋ = n := Int.floor_eq_iff.2 ⟨h1, by linarith⟩
  have hfr : Int.fract x ≠ 1/2 := by
    rw [Int.fract, hfl]
    intro hc
    have : x = (n : ℝ) + 1/2 := by linarith
    linarith
  unfold pyRound
  rw [if_neg hfr, round_eq]
  exact Int.floor_eq_iff.2 ⟨by push_cast; linarith, by push_cast; linarith⟩

/-- Python `round` agrees with the floor of `x + 1/2` away from exact
halves (upper case). -/
lemma pyRound_eq_of_half_lt {x : ℝ} {n : ℤ} (h1 : (n : ℝ) + 1/2 < x) (h2 : x < (n : ℝ) + 1) :
    pyRound x = n + 1 := by
  have hfl : ⌊x⌋ = n := Int.floor_eq_iff.2 ⟨by linarith, by linarith⟩
  have hfr : Int.fract x ≠ 1/2 := by
    rw [Int.fract, hfl]
    intro hc
    have : x = (n : ℝ) + 1/2 := by linarith
    linarith
  unfold pyRound
  rw [if_neg hfr, round_eq]
  exact Int.floor_eq_iff.2 ⟨by push_cast; linarith, by push_cast; linarith⟩

/-- `pyTrunc` on nonnegative reals is the floor. -/
lemma pyTrunc_eq_floor {x : ℝ} (h : 0 ≤ x) : pyTrunc x = ⌊x⌋ := by
  unfold pyTrunc
  rw [if_pos h]

/-- `range(a, b, s)` is empty when `b ≤ a`. -/
lemma pyRange_eq_nil {a b step : ℤ} (h : b ≤ a) : pyRange a b step = [] := by
  unfold pyRange
  rw [if_pos h]
  rfl

end NumericPrimitives

section EnvelopeLemmas

/-- If the loop condition fails, `envLoop` returns its input for any fuel. -/
lemma envLoop_of_not_lt {T w d : ℝ} (maxW : Option ℝ) (h : ¬ w * d < T) :
    ∀ n, envLoop T maxW n w d = (w, d) := by
  intro n
  cases n <;> simp [envLoop, h]

/-- With enough fuel (relative to `5 * min w d` per iteration), the
correction loop reaches `T ≤ width * depth`. -/
lemma envLoop_ge (T : ℝ) (maxW : Option ℝ) :
    ∀ (n : ℕ) (w d : ℝ), 0 < w → 0 < d → T ≤ w * d + 5 * min w d * n →
      T ≤ (envLoop T maxW n w d).1 * (envLoop T maxW n w d).2 := by
  intro n
  induction n with
  | zero =>
    intro w d _ _ hfuel
    simpa [envLoop] using hfuel
  | succ n ih =>
    intro w d hw hd hfuel
    by_cases hlt : w * d < T
    · have hmin₁ : min w d ≤ d := min_le_right w d
      have hmin₂ : min w d ≤ w := min_le_left w d
      have hn : (0 : ℝ) ≤ (n : ℝ) := Nat.cast_nonneg n
      by_cases hcap : belowCap w maxW
      · have hstep : T ≤ (w + 5) * d + 5 * min (w + 5) d * n := by
          have hmono : min w d ≤ min (w + 5) d := min_le_min (by linarith) le_rfl
          have hprod : 5 * min w d * n ≤ 5 * min (w + 5) d * n := by
            apply mul_le_mul_of_nonneg_right _ hn
            linarith
          have hcast : (Nat.succ n : ℝ) = (n : ℝ) + 1 := by push_cast; ring
          rw [hcast] at hfuel
          nlinarith
        have := ih (w + 5) d (by linarith) hd hstep
        simpa [envLoop, hlt, hcap] using this
      · have hstep : T ≤ w * (d + 5) + 5 * min w (d + 5) * n := by
          have hmono : min w d ≤ min w (d + 5) := min_le_min le_rfl (by linarith)
          have hprod : 5 * min w d * n ≤ 5 * min w (d + 5) * n := by
            apply mul_le_mul_of_nonneg_right _ hn
            linarith
          have hcast : (Nat.succ n : ℝ) = (n : ℝ) + 1 := by push_cast; ring
          rw [hcast] at hfuel
          nlinarith
        have := ih w (d + 5) hw (by linarith) hstep
        simpa [envLoop, hlt, hcap] using this
    · simpa [envLoop, hlt] using not_lt.1 hlt

/-- Positivity of the starting dimensions of the envelope calculation. -/
lemma envStart_pos (T : ℝ) (lot : Option (ℝ × ℝ)) (hT : 0 < T) (hlot : lotOk lot) :
    0 < (envStart T lot).1 ∧ 0 < (envStart T lot).2 := by
  have hsq : 0 < Real.sqrt (T * (13/10)) := Real.sqrt_pos.2 (by nlinarith)
  cases lot with
  | none =>
    constructor
    · simpa [envStart, lotCaps, minCap] using hsq
    · have hw : (envStart T none).1 = Real.sqrt (T * (13/10)) := by
        simp [envStart, lotCaps, minCap]
      simp only [envStart, lotCaps, minCap]
      exact div_pos hT hsq
  | some lwd =>
    obtain ⟨lw, ld⟩ := lwd
    obtain ⟨hlw, hld⟩ := hlot
    have h1 : 0 < (envStart T (some (lw, ld))).1 := by
      simp only [envStart, lotCaps, minCap]
      exact lt_min hsq (by linarith)
    refine ⟨h1, ?_⟩
    simp only [envStart, lotCaps, minCap] at h1 ⊢
    exact lt_min (div_pos hT h1) (by linarith)

/-- The fuel chosen by `buildingEnvelopePre` suffices. -/
lemma envFuel_sufficient {T w d : ℝ} (hT : 0 < T) (hw : 0 < w) (hd : 0 < d) :
    T ≤ w * d + 5 * min w d * (envFuel T w d) := by
  have hm : 0 < min w d := lt_min hw hd
  have h5m : 0 < 5 * min w d := by linarith
  have hceil : T / (5 * min w d) ≤ (⌈T / (5 * min w d)⌉₊ : ℝ) := Nat.le_ceil _
  have hTle : T ≤ 5 * min w d * (⌈T / (5 * min w d)⌉₊ : ℝ) := by
    rw [← div_le_iff₀' h5m]
    exact hceil
  have hwd : 0 < w * d := mul_pos hw hd
  unfold envFuel
  push_cast
  nlinarith

/-- C5 (amended core): for every positive `totalSqFt` and well-formed lot,
the envelope dimensions after the correction loop but before the final
rounding satisfy `width * depth ≥ totalSqFt`. -/
lemma buildingEnvelopePre_ge (T : ℝ) (lot : Option (ℝ × ℝ)) (hT : 0 < T) (hlot : lotOk lot) :
    T ≤ (buildingEnvelopePre T lot).1 * (buildingEnvelopePre T lot).2 := by
  obtain ⟨hw, hd⟩ := envStart_pos T lot hT hlot
  unfold buildingEnvelopePre
  exact envLoop_ge T (lotCaps lot).1 _ _ _ hw hd (envFuel_sufficient hT hw hd)

/-- `50.9901 < √2600`. -/
lemma sqrt2600_gt : (509901/10000 : ℝ) < Real.sqrt 2600 := by
  rw [show (509901/10000 : ℝ) < Real.sqrt 2600 ↔ ((509901/10000 : ℝ))^2 < 2600 from
    Real.lt_sqrt (by norm_num)]
  norm_num

/-- `√2600 < 50.9902`. -/
lemma sqrt2600_lt : Real.sqrt 2600 < 509902/10000 := by
  rw [Real.sqrt_lt' (by norm_num)]
  norm_num

/-- The envelope loop does not fire at `totalSqFt = 2000` without a lot:
the starting dimensions multiply to exactly 2000. -/
lemma buildingEnvelopePre_2000 :
    buildingEnvelopePre 2000 none = (Real.sqrt 2600, 2000 / Real.sqrt 2600) := by
  have hne : Real.sqrt 2600 ≠ 0 := ne_of_gt (Real.sqrt_pos.2 (by norm_num))
  have harg : (2000 : ℝ) * (13/10) = 2600 := by norm_num
  have hnl : ¬ (Real.sqrt 2600 * (2000 / Real.sqrt 2600) < 2000) := by
    rw [mul_comm, div_mul_cancel₀ _ hne]
    exact lt_irrefl 2000
  unfold buildingEnvelopePre envStart
  simp only [lotCaps, minCap, harg]
  exact envLoop_of_not_lt none hnl _

/-- Concrete value of the rounded envelope at `totalSqFt = 2000`:
`(50.99, 39.22)`. -/
lemma buildingEnvelope_2000 : buildingEnvelope 2000 none = (5099/100, 3922/100) := by
  have h1 := sqrt2600_gt
  have h2 := sqrt2600_lt
  have hpos : (0 : ℝ) < Real.sqrt 2600 := by linarith
  have hw : pyRound2 (Real.sqrt 2600) = 5099/100 := by
    unfold pyRound2
    rw [show pyRound (Real.sqrt 2600 * 100) = 5099 from
      pyRound_eq_of_lt_half (by push_cast; nlinarith) (by push_cast; nlinarith)]
    norm_num
  have hdlo : (3922/100 : ℝ) < 2000 / Real.sqrt 2600 := by
    rw [lt_div_iff₀ hpos]
    nlinarith
  have hdhi : 2000 / Real.sqrt 2600 < 39225/1000 := by
    rw [div_lt_iff₀ hpos]
    nlinarith
  have hd : pyRound2 (2000 / Real.sqrt 2600) = 3922/100 := by
    unfold pyRound2
    rw [show pyRound (2000 / Real.sqrt 2600 * 100) = 3922 from
      pyRound_eq_of_lt_half (by push_cast; nlinarith) (by push_cast; nlinarith)]
    norm_num
  simp only [buildingEnvelope, buildingEnvelopePre_2000]
  rw [hw, hd]

end EnvelopeLemmas

section StructuralLemmas

/-- Every room produced by the placement loop has empty doors, windows and
adjacency lists. -/
lemma placeRoomsAux_fresh (bw bd : ℝ) :
    ∀ (reqs : List (RoomRequest ℝ)) (occ : List PlacedRect) (placed : List (Room ℝ)),
      ∀ r ∈ placeRoomsAux bw bd reqs occ placed,
        r.doors = [] ∧ r.windows = [] ∧ r.adjacentRooms = [] := by
  intro reqs
  induction reqs with
  | nil =>
    intro occ placed r hr
    simp [placeRoomsAux] at hr
  | cons req rest ih =>
    intro occ placed r hr
    simp only [placeRoomsAux, List.mem_cons] at hr
    rcases hr with h | h
    · subst h
      exact ⟨rfl, rfl, rfl⟩
    · exact ih _ _ r h

/-- Every room of `_optimize_layout`'s output comes from an input room with
only the adjacency list changed. -/
lemma optimizeLayout_mem (p : FloorPlan ℝ) :
    ∀ r' ∈ (optimizeLayout p).rooms, ∃ r ∈ p.rooms,
      r'.doors = r.doors ∧ r'.windows = r.windows ∧ r'.roomType = r.roomType ∧
      r'.x = r.x ∧ r'.y = r.y ∧ r'.width = r.width ∧ r'.height = r.height := by
  intro r' h
  simp only [optimizeLayout, List.mem_map] at h
  obtain ⟨⟨i, r⟩, hmem, rfl⟩ := h
  refine ⟨r, ?_, rfl, rfl, rfl, rfl, rfl, rfl, rfl⟩
  have h2 := List.mem_enum_iff_getElem?.1 hmem
  exact List.getElem?_mem h2

/-- `addBedroomOpenings` keeps the room type and geometry. -/
lemma addBedroomOpenings_preserve (r : Room ℝ) :
    (addBedroomOpenings r).roomType = r.roomType ∧ (addBedroomOpenings r).x = r.x ∧
    (addBedroomOpenings r).y = r.y ∧ (addBedroomOpenings r).width = r.width ∧
    (addBedroomOpenings r).height = r.height := by
  unfold addBedroomOpenings
  split_ifs <;> exact ⟨rfl, rfl, rfl, rfl, rfl⟩

/-- `addLivingWindows` keeps the room type, geometry and doors. -/
lemma addLivingWindows_preserve (r : Room ℝ) :
    (addLivingWindows r).roomType = r.roomType ∧ (addLivingWindows r).x = r.x ∧
    (addLivingWindows r).y = r.y ∧ (addLivingWindows r).width = r.width ∧
    (addLivingWindows r).height = r.height ∧ (addLivingWindows r).doors = r.doors := by
  unfold addLivingWindows
  split_ifs <;> exact ⟨rfl, rfl, rfl, rfl, rfl, rfl⟩

/-- `_add_openings` keeps the room type and geometry of every room. -/
lemma addOpeningsRoom_preserve (r : Room ℝ) :
    (addOpeningsRoom r).roomType = r.roomType ∧ (addOpeningsRoom r).x = r.x ∧
    (addOpeningsRoom r).y = r.y ∧ (addOpeningsRoom r).width = r.width ∧
    (addOpeningsRoom r).height = r.height := by
  obtain ⟨h1, h2, h3, h4, h5⟩ := addBedroomOpenings_preserve r
  obtain ⟨g1, g2, g3, g4, g5, _⟩ := addLivingWindows_preserve (addBedroomOpenings r)
  unfold addOpeningsRoom
  exact ⟨g1.trans h1, g2.trans h2, g3.trans h3, g4.trans h4, g5.trans h5⟩

/-- `_add_openings` does not give a door to a living, kitchen or garage
room. -/
lemma addOpeningsRoom_doors_of_lkg (r : Room ℝ)
    (h : r.roomType = RoomType.living ∨ r.roomType = RoomType.kitchen ∨
      r.roomType = RoomType.garage) :
    (addOpeningsRoom r).doors = r.doors := by
  have hnb : ¬ (r.roomType = RoomType.bedroom ∨ r.roomType = RoomType.masterBedroom) := by
    rcases h with h | h | h <;> rw [h] <;> rintro (hc | hc) <;> exact absurd hc (by decide)
  unfold addOpeningsRoom
  rw [(addLivingWindows_preserve (addBedroomOpenings r)).2.2.2.2.2]
  unfold addBedroomOpenings
  rw [if_neg hnb]

/-- `_add_openings` on a living room with an empty window list produces
exactly the picture and casement windows on the `y + height` edge. -/
lemma addOpeningsRoom_living_windows (r : Room ℝ) (ht : r.roomType = RoomType.living)
    (hw : r.windows = []) :
    (addOpeningsRoom r).windows =
      [⟨r.x + r.width / 3, r.y + r.height, 6, 5, "picture"⟩,
       ⟨r.x + r.width * 2 / 3, r.y + r.height, 4, 5, "casement"⟩] := by
  have hnb : ¬ (r.roomType = RoomType.bedroom ∨ r.roomType = RoomType.masterBedroom) := by
    rw [ht]
    rintro (hc | hc) <;> exact absurd hc (by decide)
  unfold addOpeningsRoom addBedroomOpenings
  rw [if_neg hnb]
  unfold addLivingWindows
  rw [if_pos ht, hw]
  rfl

/-- The rooms of a generated plan are the placed rooms after adjacency
annotation and opening placement. -/
lemma generate_rooms_eq (T : ℝ) (bed bath : ℕ) (style : String)
    (sr : Option SpecialRooms) (lot : Option (ℝ × ℝ)) :
    (generateFloorPlan T bed bath style sr lot).rooms =
      ((optimizeLayout (basePlan T bed bath style sr lot)).rooms).map addOpeningsRoom := rfl

/-- In a generated plan, every living, kitchen or garage room has an empty
doors list (the opening placer only attaches doors to bedrooms). -/
lemma generate_lkg_doors_empty (T : ℝ) (bed bath : ℕ) (style : String)
    (sr : Option SpecialRooms) (lot : Option (ℝ × ℝ)) :
    ∀ r ∈ (generateFloorPlan T bed bath style sr lot).rooms,
      (r.roomType = RoomType.living ∨ r.roomType = RoomType.kitchen ∨
        r.roomType = RoomType.garage) → r.doors = [] := by
  intro r hr htype
  rw [generate_rooms_eq] at hr
  obtain ⟨r₂, hmem₂, rfl⟩ := List.mem_map.1 hr
  have htype₂ : r₂.roomType = RoomType.living ∨ r₂.roomType = RoomType.kitchen ∨
      r₂.roomType = RoomType.garage := by
    rwa [(addOpeningsRoom_preserve r₂).1] at htype
  obtain ⟨r₁, hmem₁, hdoors, _, _, _, _, _, _⟩ := optimizeLayout_mem _ r₂ hmem₂
  have h₁ : r₁.doors = [] :=
    (placeRoomsAux_fresh _ _ _ _ _ r₁ hmem₁).1
  rw [addOpeningsRoom_doors_of_lkg r₂ htype₂, hdoors, h₁]

/-- In a generated plan, every room's windows are empty before
`_add_openings`; hence every living room's windows are exactly the two
windows placed on the `y + height` edge. -/
lemma generate_living_windows (T : ℝ) (bed bath : ℕ) (style : String)
    (sr : Option SpecialRooms) (lot : Option (ℝ × ℝ)) :
    ∀ r ∈ (generateFloorPlan T bed bath style sr lot).rooms,
      r.roomType = RoomType.living →
        r.windows = [⟨r.x + r.width / 3, r.y + r.height, 6, 5, "picture"⟩,
                     ⟨r.x + r.width * 2 / 3, r.y + r.height, 4, 5, "casement"⟩] := by
  intro r hr htype
  rw [generate_rooms_eq] at hr
  obtain ⟨r₂, hmem₂, rfl⟩ := List.mem_map.1 hr
  obtain ⟨hty, hx, hy, hw, hh⟩ := addOpeningsRoom_preserve r₂
  have htype₂ : r₂.roomType = RoomType.living := by rwa [hty] at htype
  obtain ⟨r₁, hmem₁, _, hwin, _, _, _, _, _⟩ := optimizeLayout_mem _ r₂ hmem₂
  have h₁ : r₂.windows = [] := by
    rw [hwin]
    exact (placeRoomsAux_fresh _ _ _ _ _ r₁ hmem₁).2.1
  rw [addOpeningsRoom_living_windows r₂ htype₂ h₁, hx, hy, hw, hh]

/-- The egress pass yields exactly the `IRC R311.2` critical violation when
no living/kitchen/garage room has a door. -/
lemma validateEgress_of_no_doors (p : FloorPlan ℝ)
    (h : ∀ r ∈ p.rooms,
      (r.roomType = RoomType.living ∨ r.roomType = RoomType.kitchen ∨
        r.roomType = RoomType.garage) → r.doors = []) :
    validateEgress p = [⟨"critical", "Overall Plan", "IRC R311.2"⟩] := by
  unfold validateEgress
  rw [if_neg]
  rintro ⟨r, hr, htype, hdoors⟩
  exact hdoors (h r hr htype)

end StructuralLemmas

section AdjacencyLemmas

/-- The center-to-center distance is symmetric. -/
lemma roomDistance_symm (a b : Room ℝ) : roomDistance a b = roomDistance b a := by
  unfold roomDistance
  congr 1
  ring

/-- Membership in the adjacency fold of `_optimize_layout`: a name is
collected iff it was already present or some other enumerated room within
50 ft carries it. -/
lemma mem_foldl_adj (i : ℕ) (room : Room ℝ) (x : String) :
    ∀ (l : List (ℕ × Room ℝ)) (acc : List String),
      x ∈ l.foldl (fun acc jo =>
          if i ≠ jo.1 ∧ roomDistance room jo.2 < 50 ∧ jo.2.name ∉ acc then acc ++ [jo.2.name]
          else acc) acc ↔
        x ∈ acc ∨ ∃ jo ∈ l, i ≠ jo.1 ∧ roomDistance room jo.2 < 50 ∧ jo.2.name = x := by
  intro l
  induction l with
  | nil => intro acc; simp
  | cons jo l ih =>
    intro acc
    rw [List.foldl_cons, ih]
    have hstep : x ∈ (if i ≠ jo.1 ∧ roomDistance room jo.2 < 50 ∧ jo.2.name ∉ acc
        then acc ++ [jo.2.name] else acc) ↔
        x ∈ acc ∨ (i ≠ jo.1 ∧ roomDistance room jo.2 < 50 ∧ jo.2.name = x) := by
      split_ifs with hc
      · obtain ⟨h1, h2, _⟩ := hc
        simp [List.mem_append, h1, h2, eq_comm]
      · constructor
        · exact fun h => Or.inl h
        · rintro (h | ⟨h1, h2, h3⟩)
          · exact h
          · subst h3
            by_contra hmem
            exact hc ⟨h1, h2, hmem⟩
    rw [hstep]
    constructor
    · rintro ((h | h) | h)
      · exact Or.inl h
      · exact Or.inr ⟨jo, List.mem_cons_self _ _, h⟩
      · obtain ⟨jo', hjo', hh⟩ := h
        exact Or.inr ⟨jo', List.mem_cons_of_mem _ hjo', hh⟩
    · rintro (h | ⟨jo', hjo', hh⟩)
      · exact Or.inl (Or.inl h)
      · rcases List.mem_cons.1 hjo' with rfl | hmem
        · exact Or.inl (Or.inr hh)
        · exact Or.inr ⟨jo', hmem, hh⟩

/-- For a room whose adjacency list starts empty, membership in the
annotated list is exactly the 50-ft condition against some other
enumerated room. -/
lemma mem_adjacentAfter_of_empty (rooms : List (Room ℝ)) (i : ℕ) (room : Room ℝ)
    (h : room.adjacentRooms = []) (x : String) :
    x ∈ adjacentAfter rooms i room ↔
      ∃ jo ∈ rooms.enum, i ≠ jo.1 ∧ roomDistance room jo.2 < 50 ∧ jo.2.name = x := by
  unfold adjacentAfter
  rw [h, mem_foldl_adj]
  simp

/-- The `i`-th room after `_optimize_layout` is the `i`-th input room with
its annotated adjacency list. -/
lemma optimizeLayout_rooms_getElem (p : FloorPlan ℝ) (i : ℕ) (hi : i < p.rooms.length) :
    (optimizeLayout p).rooms[i]? =
      some { p.rooms.get ⟨i, hi⟩ with
        adjacentRooms := adjacentAfter p.rooms i (p.rooms.get ⟨i, hi⟩) } := by
  simp [optimizeLayout, List.getElem?_map, List.getElem?_enum, List.getElem?_eq_getElem hi]

/-- The two stale-plan rooms are 1000 ft apart (center to center). -/
lemma roomDistance_BA : roomDistance roomAdjB roomAdjA = 1000 := by
  have harg : (roomAdjB.centerX - roomAdjA.centerX)^2
      + (roomAdjB.centerY - roomAdjA.centerY)^2 = 1000000 := by
    simp only [Room.centerX, Room.centerY, roomAdjA, roomAdjB]
    norm_num
  unfold roomDistance
  rw [harg, show (1000000 : ℝ) = 1000^2 by norm_num, Real.sqrt_sq (by norm_num)]

end AdjacencyLemmas

section Plan2000Lemmas

/-- The sorted room requests for `totalSqFt = 2000`, 3 bedrooms, 2
bathrooms, style `"modern"`, no special rooms: stable descending priority
order. -/
lemma requests2000_eq :
    sortByPriorityDesc (generateRoomList (spaceAllocation 2000 3 2 "modern") 3 2 none) =
    ([⟨"Living Room", RoomType.living, 500, 10⟩,
      ⟨"Kitchen", RoomType.kitchen, 300, 9⟩,
      ⟨"Master Bedroom", RoomType.masterBedroom, 280, 8⟩,
      ⟨"Dining Room", RoomType.dining, 200, 7⟩,
      ⟨"Master Bathroom", RoomType.masterBathroom, 130, 7⟩,
      ⟨"Bedroom 2", RoomType.bedroom, 180, 5⟩,
      ⟨"Bedroom 3", RoomType.bedroom, 180, 5⟩,
      ⟨"Bathroom 2", RoomType.bathroom, 100, 4⟩] : List (RoomRequest ℝ)) := by
  have hdin : (spaceAllocation 2000 3 2 "modern" : Allocation ℝ).dining > 80 := by
    norm_num +decide [spaceAllocation, styleShares,
      show lowerString "modern" = "modern" from by decide]
  norm_num +decide [spaceAllocation, styleShares, generateRoomList, sortByPriorityDesc,
    insertByPriorityDesc, List.range_succ, hdin,
    show lowerString "modern" = "modern" from by decide]

/-- `18.25 < √(1000/3) < 18.26` (the Living Room height before snapping). -/
lemma sqrt_living_bounds :
    (1825/100 : ℝ) < Real.sqrt (1000/3) ∧ Real.sqrt (1000/3) < 1826/100 := by
  constructor
  · rw [Real.lt_sqrt (by norm_num)]
    norm_num
  · rw [Real.sqrt_lt' (by norm_num)]
    norm_num

/-- `15.19 < √(3000/13) < 15.2` (the Kitchen height before snapping). -/
lemma sqrt_kitchen_bounds :
    (1519/100 : ℝ) < Real.sqrt (3000/13) ∧ Real.sqrt (3000/13) < 152/10 := by
  constructor
  · rw [Real.lt_sqrt (by norm_num)]
    norm_num
  · rw [Real.sqrt_lt' (by norm_num)]
    norm_num

/-- Snapped Living Room dimensions for a requested area of 500 sq ft:
30 x 20, actual area 600. -/
lemma roomDims_living : roomDims RoomType.living 500 = (30, 20, 600) := by
  obtain ⟨hlo, hhi⟩ := sqrt_living_bounds
  have hpos : (0 : ℝ) < Real.sqrt (1000/3) := by linarith
  have hw1 : (500 : ℝ) / Real.sqrt (1000/3) < 500 / (1825/100) :=
    div_lt_div_of_pos_left (by norm_num) (by norm_num) hlo
  have hw2 : (500 : ℝ) / (1826/100) < 500 / Real.sqrt (1000/3) :=
    div_lt_div_of_pos_left (by norm_num) hpos hhi
  have hb1 : (25 : ℝ) < 500 / (1826/100) := by norm_num
  have hb2 : (500 : ℝ) / (1825/100) < 30 := by norm_num
  have hwr : pyRound ((500 : ℝ) / Real.sqrt (1000/3) / 10) = 3 := by
    rw [show (3 : ℤ) = 2 + 1 by norm_num]
    refine pyRound_eq_of_half_lt ?_ ?_
    · push_cast
      linarith
    · push_cast
      linarith
  have hhr : pyRound (Real.sqrt (1000/3) / 10) = 2 := by
    rw [show (2 : ℤ) = 1 + 1 by norm_num]
    refine pyRound_eq_of_half_lt ?_ ?_ <;> push_cast <;> linarith
  simp only [roomDims]
  rw [show max (500 : ℝ) 50 = 500 from max_eq_left (by norm_num),
    show (500 : ℝ) / idealAspect RoomType.living = 1000/3 from by
      rw [show idealAspect RoomType.living = 15/10 from rfl]; norm_num]
  rw [hwr, hhr]
  norm_num

/-- Snapped Kitchen dimensions for a requested area of 300 sq ft:
20 x 20, actual area 400. -/
lemma roomDims_kitchen : roomDims RoomType.kitchen 300 = (20, 20, 400) := by
  obtain ⟨hlo, hhi⟩ := sqrt_kitchen_bounds
  have hpos : (0 : ℝ) < Real.sqrt (3000/13) := by linarith
  have hw1 : (300 : ℝ) / Real.sqrt (3000/13) < 300 / (1519/100) :=
    div_lt_div_of_pos_left (by norm_num) (by norm_num) hlo
  have hw2 : (300 : ℝ) / (152/10) < 300 / Real.sqrt (3000/13) :=
    div_lt_div_of_pos_left (by norm_num) hpos hhi
  have hb1 : (15 : ℝ) < 300 / (152/10) := by norm_num
  have hb2 : (300 : ℝ) / (1519/100) < 20 := by norm_num
  have hwr : pyRound ((300 : ℝ) / Real.sqrt (3000/13) / 10) = 2 := by
    rw [show (2 : ℤ) = 1 + 1 by norm_num]
    refine pyRound_eq_of_half_lt ?_ ?_
    · push_cast
      linarith
    · push_cast
      linarith
  have hhr : pyRound (Real.sqrt (3000/13) / 10) = 2 := by
    rw [show (2 : ℤ) = 1 + 1 by norm_num]
    refine pyRound_eq_of_half_lt ?_ ?_ <;> push_cast <;> linarith
  simp only [roomDims]
  rw [show max (300 : ℝ) 50 = 300 from max_eq_left (by norm_num),
    show (300 : ℝ) / idealAspect RoomType.kitchen = 3000/13 from by
      rw [show idealAspect RoomType.kitchen = 13/10 from rfl]; norm_num]
  rw [hwr, hhr]
  norm_num

/-- `int(50.99 - 30) = 20`. -/
lemma pyTrunc_2099 : pyTrunc ((5099 : ℝ)/100 - 30) = 20 := by
  rw [pyTrunc_eq_floor (by norm_num)]
  rw [Int.floor_eq_iff]
  norm_num

/-- `int(50.99 - 20) = 30`. -/
lemma pyTrunc_3099 : pyTrunc ((5099 : ℝ)/100 - 20) = 30 := by
  rw [pyTrunc_eq_floor (by norm_num)]
  rw [Int.floor_eq_iff]
  norm_num

/-- `int(39.22 - 20) = 19`. -/
lemma pyTrunc_1922 : pyTrunc ((3922 : ℝ)/100 - 20) = 19 := by
  rw [pyTrunc_eq_floor (by norm_num)]
  rw [Int.floor_eq_iff]
  norm_num

/-- The dense fallback raster is empty at the 2000-sq-ft footprint for a
20-ft-tall room, so `_find_first_available` returns (50, 50). -/
lemma findFirstAvailable_2000 (w : ℝ) (occupied : List PlacedRect) :
    findFirstAvailable w 20 (5099/100) (3922/100) occupied = (50, 50) := by
  unfold findFirstAvailable
  rw [pyTrunc_1922, pyRange_eq_nil (by norm_num)]
  rfl

/-- The Living Room scan finds no candidate at the 2000-sq-ft footprint:
both preferred orientations scan an empty x-range, so the documented
fallback places it at (50, 50) facing SOUTH. -/
lemma findBest_living_2000 (occupied : List PlacedRect) (placed : List (Room ℝ)) :
    findBestPosition RoomType.living 30 20 (5099/100) (3922/100) occupied placed =
      (50, 50, Orientation.south) := by
  have hc1 : candidatePositions Orientation.south 30 20 (5099/100) (3922/100) = [] := by
    simp only [candidatePositions]
    rw [pyTrunc_2099, pyRange_eq_nil (by norm_num)]
    rfl
  have hc2 : candidatePositions Orientation.southwest 30 20 (5099/100) (3922/100) = [] := by
    simp only [candidatePositions]
    rw [pyTrunc_2099, pyRange_eq_nil (by norm_num)]
    rfl
  simp only [findBestPosition,
    show orientationPrefs RoomType.living = [Orientation.south, Orientation.southwest] from rfl,
    List.foldl_cons, List.foldl_nil, hc1, hc2]
  simp only [if_true, findFirstAvailable_2000]

/-- The Kitchen scan finds no candidate either (EAST scans an empty
y-range, SOUTHEAST an empty x-range), so the fallback places it at
(50, 50) with the default SOUTH orientation. -/
lemma findBest_kitchen_2000 (occupied : List PlacedRect) (placed : List (Room ℝ)) :
    findBestPosition RoomType.kitchen 20 20 (5099/100) (3922/100) occupied placed =
      (50, 50, Orientation.south) := by
  have hc1 : candidatePositions Orientation.east 20 20 (5099/100) (3922/100) = [] := by
    simp only [candidatePositions]
    rw [pyTrunc_1922, pyRange_eq_nil (by norm_num)]
    rfl
  have hc2 : candidatePositions Orientation.southeast 20 20 (5099/100) (3922/100) = [] := by
    simp only [candidatePositions]
    rw [pyTrunc_3099, pyRange_eq_nil (by norm_num)]
    rfl
  simp only [findBestPosition,
    show orientationPrefs RoomType.kitchen = [Orientation.east, Orientation.southeast] from rfl,
    List.foldl_cons, List.foldl_nil, hc1, hc2]
  simp only [if_true, findFirstAvailable_2000]

/-- The first two rooms placed for the common-case input are the Living
Room and the Kitchen, both at the fallback position (50, 50). -/
lemma basePlan2000_shape :
    ∃ rest, (basePlan 2000 3 2 "modern" none none).rooms =
      livingPlaced2000 :: kitchenPlaced2000 :: rest := by
  have henv := buildingEnvelope_2000
  have h1 : (basePlan 2000 3 2 "modern" none none).rooms =
      placeRoomsAux (5099/100) (3922/100)
        (sortByPriorityDesc (generateRoomList (spaceAllocation 2000 3 2 "modern") 3 2 none))
        [] [] := by
    show placeRooms _ (buildingEnvelope 2000 none).1 (buildingEnvelope 2000 none).2 = _
    rw [henv]
    rfl
  rw [h1, requests2000_eq]
  simp only [placeRoomsAux, roomDims_living, roomDims_kitchen,
    findBest_living_2000, findBest_kitchen_2000]
  exact ⟨_, rfl⟩

/-- The shape of the generated common-case plan: the head rooms are the
Living Room (with its two windows on the `y + height = 70` edge) and the
Kitchen, both at (50, 50). -/
lemma plan2000_shape :
    ∃ r0 r1 rest, plan2000.rooms = r0 :: r1 :: rest ∧
      r0.roomType = RoomType.living ∧ r0.x = 50 ∧ r0.y = 50 ∧
      r0.width = 30 ∧ r0.height = 20 ∧
      r0.windows = [⟨60, 70, 6, 5, "picture"⟩, ⟨70, 70, 4, 5, "casement"⟩] ∧
      r1.roomType = RoomType.kitchen ∧ r1.x = 50 ∧ r1.y = 50 ∧
      r1.width = 20 ∧ r1.height = 20 := by
  obtain ⟨rest, hbase⟩ := basePlan2000_shape
  have henum : (basePlan 2000 3 2 "modern" none none).rooms.enum =
      (0, livingPlaced2000) :: (1, kitchenPlaced2000) :: (rest.enumFrom 2) := by
    rw [hbase]
    rfl
  set B := basePlan 2000 3 2 "modern" none none with hB
  have hopt : (optimizeLayout B).rooms =
      { livingPlaced2000 with
          adjacentRooms := adjacentAfter B.rooms 0 livingPlaced2000 } ::
      { kitchenPlaced2000 with
          adjacentRooms := adjacentAfter B.rooms 1 kitchenPlaced2000 } ::
      ((rest.enumFrom 2).map fun ir =>
        { ir.2 with adjacentRooms := adjacentAfter B.rooms ir.1 ir.2 }) := by
    show B.rooms.enum.map _ = _
    rw [henum]
    rfl
  have hgen : plan2000.rooms = ((optimizeLayout B).rooms).map addOpeningsRoom := rfl
  rw [hgen, hopt]
  simp only [List.map_cons]
  refine ⟨_, _, _, rfl, ?_, ?_, ?_, ?_, ?_, ?_, ?_, ?_, ?_, ?_, ?_⟩
  · exact (addOpeningsRoom_preserve _).1
  · exact (addOpeningsRoom_preserve _).2.1
  · exact (addOpeningsRoom_preserve _).2.2.1
  · exact (addOpeningsRoom_preserve _).2.2.2.1
  · exact (addOpeningsRoom_preserve _).2.2.2.2
  · rw [addOpeningsRoom_living_windows _ rfl rfl]
    norm_num [livingPlaced2000]
  · exact (addOpeningsRoom_preserve _).1
  · exact (addOpeningsRoom_preserve _).2.1
  · exact (addOpeningsRoom_preserve _).2.2.1
  · exact (addOpeningsRoom_preserve _).2.2.2.1
  · exact (addOpeningsRoom_preserve _).2.2.2.2

end Plan2000Lemmas

/-! ## Claim theorems -/

/-- C8: for every `totalSqFt > 0`, `bedroomCount ≥ 1`, `bathroomCount ≥ 1`,
the seven category shares of the `"modern"` space allocation sum to 1 after
the bedroom/bathroom adjustments, and the per-category square footage
returned by the allocator sums to `totalSqFt`. -/
theorem c8_modern_allocation_conserves_area (T : ℚ) (bed bath : ℕ)
    (hT : 0 < T) (hbed : 1 ≤ bed) (hbath : 1 ≤ bath) :
    (adjustedShares bed bath "modern" : Allocation ℚ).total = 1 ∧
    (spaceAllocation T bed bath "modern" : Allocation ℚ).total = T := by
  refine ⟨adjustedShares_total bed bath "modern", ?_⟩
  rw [spaceAllocation_total_eq, adjustedShares_total, mul_one]

/-- Witness for C8 at `totalSqFt = 2000`, 4 bedrooms, 3 bathrooms. -/
theorem c8_modern_allocation_conserves_area_witness :
    (adjustedShares 4 3 "modern" : Allocation ℚ).total = 1 ∧
    (spaceAllocation 2000 4 3 "modern" : Allocation ℚ).total = 2000 :=
  c8_modern_allocation_conserves_area 2000 4 3 (by norm_num) (by norm_num) (by norm_num)

/-- C1 (code evaluated at the failing input): `validate_floor_plan` does
not return a result dictionary for a `FloorPlan` with `totalSqFt = 0` — the
variance computation of `_validate_overall_plan` divides by the claimed
total and raises `ZeroDivisionError` (modelled as `none`). -/
theorem c1_validate_raises_on_zero_total :
    validateFloorPlan planZeroTotal = none := by
  simp [validateFloorPlan, planZeroTotal]

/-- C6: the 80-sq-ft bedroom with no windows yields exactly the critical
egress-window-absence violation `IRC R310.1` (plus the plan-level egress
door violation); with a 4 x 1 egress window added it instead yields the
critical below-minimum-area violation `IRC R310.2.1` and no `R310.1`. -/
theorem c6_bedroom_egress_window_rules :
    (validateFloorPlan planB80).map ValidationResult.violations =
      some [⟨"critical", "Bedroom 2", "IRC R310.1"⟩,
            ⟨"critical", "Overall Plan", "IRC R311.2"⟩] ∧
    (validateFloorPlan planB80W).map ValidationResult.violations =
      some [⟨"critical", "Bedroom 2", "IRC R310.2.1"⟩,
            ⟨"critical", "Overall Plan", "IRC R311.2"⟩] := by
  constructor <;>
    norm_num +decide [validateFloorPlan, mkValidationResult, allViolations, validateRoom,
      validateOverallPlan, validateEgress, validateCirculation, FloorPlan.totalArea,
      FloorPlan.totalLivingArea, FloorPlan.efficiencyPct, FloorPlan.roomsByType,
      FloorPlan.bedroomRoomCount, FloorPlan.bathroomRoomCount, Room.aspect,
      List.filterMap_cons, planB80, planB80W, roomB80]

/-- C9: `generate_floor_plan` is deterministic — two calls with identical
arguments produce identical room names, geometry and ordering. -/
theorem c9_generate_deterministic
    (T₁ T₂ : ℝ) (bed₁ bed₂ bath₁ bath₂ : ℕ) (st₁ st₂ : String)
    (sr₁ sr₂ : Option SpecialRooms) (lot₁ lot₂ : Option (ℝ × ℝ))
    (hT : T₁ = T₂) (hbed : bed₁ = bed₂) (hbath : bath₁ = bath₂) (hst : st₁ = st₂)
    (hsr : sr₁ = sr₂) (hlot : lot₁ = lot₂) :
    (generateFloorPlan T₁ bed₁ bath₁ st₁ sr₁ lot₁).rooms.map
        (fun r => (r.name, roomGeom r, r.area)) =
      (generateFloorPlan T₂ bed₂ bath₂ st₂ sr₂ lot₂).rooms.map
        (fun r => (r.name, roomGeom r, r.area)) := by
  subst hT hbed hbath hst hsr hlot
  rfl

/-- Witness for C9 at the common-case arguments. -/
theorem c9_generate_deterministic_witness :
    (generateFloorPlan 2000 3 2 "modern" none none).rooms.map
        (fun r => (r.name, roomGeom r, r.area)) =
      (generateFloorPlan 2000 3 2 "modern" none none).rooms.map
        (fun r => (r.name, roomGeom r, r.area)) :=
  c9_generate_deterministic 2000 2000 3 3 2 2 "modern" "modern" none none none none
    rfl rfl rfl rfl rfl rfl

/-- C4: for every plan the validator returns a result on, the compliance
score is `max 0 (100 - 20·critical - 5·warning - 1·info)` over the returned
violation list; `compliant` holds iff the critical count is 0; adding one
critical violation clamps the score down by exactly 20; the grade is
determined by inclusive lower bounds, with `gradeOf 95 = "A+"` and
`gradeOf 94.999 = "A"`; and the returned grade is the grade of the returned
score. -/
theorem c4_score_and_grade (p : FloorPlan ℚ) (r : ValidationResult)
    (h : validateFloorPlan p = some r) :
    r.score = max 0 (100 - 20 * (countSev "critical" r.violations : ℤ)
        - 5 * (countSev "warning" r.violations : ℤ)
        - 1 * (countSev "info" r.violations : ℤ)) ∧
    (r.compliant = true ↔ countSev "critical" r.violations = 0) ∧
    (∀ c w i : ℕ, complianceScoreZ (c + 1) w i = max 0 (complianceScoreZ c w i - 20)) ∧
    (∀ s : ℚ, 95 ≤ s → gradeOf s = "A+") ∧
    (∀ s : ℚ, 90 ≤ s → s < 95 → gradeOf s = "A") ∧
    (∀ s : ℚ, 85 ≤ s → s < 90 → gradeOf s = "B+") ∧
    (∀ s : ℚ, 80 ≤ s → s < 85 → gradeOf s = "B") ∧
    (∀ s : ℚ, 75 ≤ s → s < 80 → gradeOf s = "C+") ∧
    (∀ s : ℚ, 70 ≤ s → s < 75 → gradeOf s = "C") ∧
    (∀ s : ℚ, 60 ≤ s → s < 70 → gradeOf s = "D") ∧
    (∀ s : ℚ, s < 60 → gradeOf s = "F") ∧
    gradeOf 95 = "A+" ∧ gradeOf (94999/1000) = "A" ∧
    r.grade = gradeOf ((r.score : ℤ) : ℚ) := by
  have hr : r = mkValidationResult (allViolations p) := by
    by_cases h0 : p.totalSqFt = 0
    · simp [validateFloorPlan, h0] at h
    · simpa [validateFloorPlan, h0, eq_comm] using h
  subst hr
  refine ⟨?_, ?_, ?_, ?_, ?_, ?_, ?_, ?_, ?_, ?_, ?_, ?_, ?_, ?_⟩
  · simp [mkValidationResult, complianceScoreZ]; ring_nf
  · simp [mkValidationResult]
  · intro c w i
    unfold complianceScoreZ
    rcases le_or_lt (100 - (c : ℤ) * 20 - (w : ℤ) * 5 - (i : ℤ) * 1) 0 with hle | hlt
    · rw [max_eq_left (by push_cast; omega), max_eq_left hle]
      · omega
    · rw [max_eq_right hlt.le]
      push_cast
      omega
  · intro s hs; unfold gradeOf; rw [if_pos hs]
  · intro s h1 h2; unfold gradeOf
    rw [if_neg (by linarith), if_pos h1]
  · intro s h1 h2; unfold gradeOf
    rw [if_neg (by linarith), if_neg (by linarith), if_pos h1]
  · intro s h1 h2; unfold gradeOf
    rw [if_neg (by linarith), if_neg (by linarith), if_neg (by linarith), if_pos h1]
  · intro s h1 h2; unfold gradeOf
    rw [if_neg (by linarith), if_neg (by linarith), if_neg (by linarith),
      if_neg (by linarith), if_pos h1]
  · intro s h1 h2; unfold gradeOf
    rw [if_neg (by linarith), if_neg (by linarith), if_neg (by linarith),
      if_neg (by linarith), if_neg (by linarith), if_pos h1]
  · intro s h1 h2; unfold gradeOf
    rw [if_neg (by linarith), if_neg (by linarith), if_neg (by linarith),
      if_neg (by linarith), if_neg (by linarith), if_neg (by linarith), if_pos h1]
  · intro s h1; unfold gradeOf
    rw [if_neg (by linarith), if_neg (by linarith), if_neg (by linarith),
      if_neg (by linarith), if_neg (by linarith), if_neg (by linarith), if_neg (by linarith)]
  · unfold gradeOf; rw [if_pos (by norm_num)]
  · unfold gradeOf; rw [if_neg (by norm_num), if_pos (by norm_num)]
  · simp [mkValidationResult]

/-- Witness for C4 at the concrete plan `planEmpty100`. -/
theorem c4_score_and_grade_witness :
    resEmpty100.score = max 0 (100 - 20 * (countSev "critical" resEmpty100.violations : ℤ)
        - 5 * (countSev "warning" resEmpty100.violations : ℤ)
        - 1 * (countSev "info" resEmpty100.violations : ℤ)) :=
  (c4_score_and_grade planEmpty100 resEmpty100 (by
    norm_num +decide [validateFloorPlan, mkValidationResult, allViolations, validateRoom,
      validateOverallPlan, validateEgress, validateCirculation, FloorPlan.totalArea,
      FloorPlan.totalLivingArea, FloorPlan.efficiencyPct, FloorPlan.roomsByType,
      FloorPlan.bedroomRoomCount, FloorPlan.bathroomRoomCount, countSev,
      complianceScoreZ, gradeOf, planEmpty100, resEmpty100])).1

/-- C5 (corrected): the correction loop of the building-envelope calculator
guarantees `width * depth ≥ totalSqFt` for the pre-rounding dimensions, for
every positive `totalSqFt` with or without a (positive) lot; the function's
final output is the 2-decimal rounding of those dimensions. -/
theorem c5_envelope_area_before_rounding (T : ℝ) (lot : Option (ℝ × ℝ))
    (hT : 0 < T) (hlot : lotOk lot) :
    T ≤ (buildingEnvelopePre T lot).1 * (buildingEnvelopePre T lot).2 ∧
    buildingEnvelope T lot =
      (pyRound2 (buildingEnvelopePre T lot).1, pyRound2 (buildingEnvelopePre T lot).2) :=
  ⟨buildingEnvelopePre_ge T lot hT hlot, rfl⟩

/-- Witness for C5 at `totalSqFt = 1000` without a lot. -/
theorem c5_envelope_area_before_rounding_witness :
    1000 ≤ (buildingEnvelopePre 1000 none).1 * (buildingEnvelopePre 1000 none).2 ∧
    buildingEnvelope 1000 none =
      (pyRound2 (buildingEnvelopePre 1000 none).1, pyRound2 (buildingEnvelopePre 1000 none).2) :=
  c5_envelope_area_before_rounding 1000 none (by norm_num) trivial

/-- C5 counterexample: at `totalSqFt = 2000` (no lot) the envelope returned
after rounding is `(50.99, 39.22)`, whose product `1999.8278` is below
`totalSqFt` — the final rounding reintroduces the shortfall the loop
guarded against. -/
theorem c5_cex_rounded_envelope_below_total :
    buildingEnvelope 2000 none = (5099/100, 3922/100) ∧
    (buildingEnvelope 2000 none).1 * (buildingEnvelope 2000 none).2 < 2000 := by
  refine ⟨buildingEnvelope_2000, ?_⟩
  rw [buildingEnvelope_2000]
  norm_num

/-- C3: for every in-range generation input, the validator flags the
generated plan with the plan-level critical violation `IRC R311.2` (no
clear egress door to exterior): the opening placer attaches doors only to
bedroom-type rooms while the egress rule inspects only living, kitchen and
garage rooms.  Consequently the result is non-compliant with a compliance
score of at most 80. -/
theorem c3_generated_plans_always_fail_egress (T : ℝ) (bed bath : ℕ) (style : String)
    (sr : Option SpecialRooms) (lot : Option (ℝ × ℝ))
    (h1 : 500 ≤ T) (h2 : T ≤ 20000) (h3 : 1 ≤ bed) (h4 : bed ≤ 10)
    (h5 : 1 ≤ bath) (h6 : bath ≤ 8) :
    ∃ res, validateFloorPlan (generateFloorPlan T bed bath style sr lot) = some res ∧
      (⟨"critical", "Overall Plan", "IRC R311.2"⟩ : Violation) ∈ res.violations ∧
      res.compliant = false ∧ res.score ≤ 80 := by
  have htot : (generateFloorPlan T bed bath style sr lot).totalSqFt = T := rfl
  have hne : (generateFloorPlan T bed bath style sr lot).totalSqFt ≠ 0 := by
    rw [htot]; positivity
  have hegress : validateEgress (generateFloorPlan T bed bath style sr lot) =
      [⟨"critical", "Overall Plan", "IRC R311.2"⟩] :=
    validateEgress_of_no_doors _ (generate_lkg_doors_empty T bed bath style sr lot)
  obtain ⟨vs, hvs⟩ : ∃ vs, allViolations (generateFloorPlan T bed bath style sr lot) = vs :=
    ⟨_, rfl⟩
  have hmem : (⟨"critical", "Overall Plan", "IRC R311.2"⟩ : Violation) ∈ vs := by
    rw [← hvs]
    unfold allViolations
    rw [hegress]
    simp
  have hcrit : 0 < countSev "critical" vs := by
    unfold countSev
    exact List.countP_pos.2 ⟨_, hmem, by simp⟩
  refine ⟨mkValidationResult vs, by simp [validateFloorPlan, hne, hvs], ?_, ?_, ?_⟩
  · simpa [mkValidationResult] using hmem
  · simp only [mkValidationResult, beq_eq_false_iff_ne, ne_eq]
    omega
  · simp only [mkValidationResult, complianceScoreZ]
    have h1c : (1 : ℤ) ≤ (countSev "critical" vs : ℤ) := by exact_mod_cast hcrit
    have hw : (0 : ℤ) ≤ (countSev "warning" vs : ℤ) := Int.ofNat_nonneg _
    have hi : (0 : ℤ) ≤ (countSev "info" vs : ℤ) := Int.ofNat_nonneg _
    apply max_le (by norm_num)
    nlinarith

/-- Witness for C3 at the common-case input. -/
theorem c3_generated_plans_always_fail_egress_witness :
    ∃ res, validateFloorPlan (generateFloorPlan 2000 3 2 "modern" none none) = some res ∧
      (⟨"critical", "Overall Plan", "IRC R311.2"⟩ : Violation) ∈ res.violations ∧
      res.compliant = false ∧ res.score ≤ 80 :=
  c3_generated_plans_always_fail_egress 2000 3 2 "modern" none none
    (by norm_num) (by norm_num) (by norm_num) (by norm_num) (by norm_num) (by norm_num)

/-- C10 (amended): on a plan whose rooms have pairwise distinct names and
*empty initial adjacency lists*, the adjacency relation produced by
`_optimize_layout` is symmetric — the distance test is symmetric and is
applied independently for both ordered pairs. -/
theorem c10_adjacency_symmetric (p : FloorPlan ℝ)
    (hnd : (p.rooms.map Room.name).Nodup)
    (hemp : ∀ r ∈ p.rooms, r.adjacentRooms = [])
    (i j : ℕ) (ri rj : Room ℝ)
    (hri : (optimizeLayout p).rooms[i]? = some ri)
    (hrj : (optimizeLayout p).rooms[j]? = some rj) :
    (rj.name ∈ ri.adjacentRooms ↔ ri.name ∈ rj.adjacentRooms) := by
  have hleni : i < p.rooms.length := by
    obtain ⟨h1, -⟩ := List.getElem?_eq_some.1 hri
    simpa [optimizeLayout] using h1
  have hlenj : j < p.rooms.length := by
    obtain ⟨h1, -⟩ := List.getElem?_eq_some.1 hrj
    simpa [optimizeLayout] using h1
  rw [optimizeLayout_rooms_getElem p i hleni] at hri
  rw [optimizeLayout_rooms_getElem p j hlenj] at hrj
  obtain rfl := Option.some.inj hri
  obtain rfl := Option.some.inj hrj
  have key : ∀ (a b : ℕ) (ha : a < p.rooms.length) (hb : b < p.rooms.length),
      ((p.rooms.get ⟨b, hb⟩).name ∈ adjacentAfter p.rooms a (p.rooms.get ⟨a, ha⟩)) ↔
        (a ≠ b ∧ roomDistance (p.rooms.get ⟨a, ha⟩) (p.rooms.get ⟨b, hb⟩) < 50) := by
    intro a b ha hb
    rw [mem_adjacentAfter_of_empty _ _ _ (hemp _ (List.get_mem _ _ _)) _]
    constructor
    · rintro ⟨⟨k, o⟩, hmem, hne, hdist, hname⟩
      dsimp only at hne hdist hname
      have hko' := List.mem_enum_iff_getElem?.1 hmem
      dsimp only at hko'
      obtain ⟨hk, ho⟩ := List.getElem?_eq_some.1 hko'
      have hko : o = p.rooms.get ⟨k, hk⟩ := by rw [← ho]; simp [List.get_eq_getElem]
      subst hko
      have hk2 : k < (p.rooms.map Room.name).length := by simpa using hk
      have hb2 : b < (p.rooms.map Room.name).length := by simpa using hb
      have h1 : (p.rooms.map Room.name)[k] = (p.rooms.map Room.name)[b] := by
        simp only [List.getElem_map]
        simpa [List.get_eq_getElem] using hname
      have hkb : k = b := (List.Nodup.getElem_inj_iff hnd).1 h1
      subst hkb
      exact ⟨hne, hdist⟩
    · rintro ⟨hne, hdist⟩
      refine ⟨(b, p.rooms.get ⟨b, hb⟩), ?_, hne, hdist, rfl⟩
      rw [List.mem_enum_iff_getElem?]
      simp [List.getElem?_eq_getElem hb, List.get_eq_getElem]
  show (p.rooms.get ⟨j, hlenj⟩).name ∈ adjacentAfter p.rooms i (p.rooms.get ⟨i, hleni⟩) ↔
    (p.rooms.get ⟨i, hleni⟩).name ∈ adjacentAfter p.rooms j (p.rooms.get ⟨j, hlenj⟩)
  rw [key i j hleni hlenj, key j i hlenj hleni, roomDistance_symm]
  constructor
  · rintro ⟨h1, h2⟩
    exact ⟨h1.symm, h2⟩
  · rintro ⟨h1, h2⟩
    exact ⟨h1.symm, h2⟩

/-- Witness for C10 on `planAdjFresh` (two coincident rooms, fresh lists). -/
theorem c10_adjacency_symmetric_witness :
    freshBAfter.name ∈ freshAAfter.adjacentRooms ↔
      freshAAfter.name ∈ freshBAfter.adjacentRooms :=
  c10_adjacency_symmetric planAdjFresh
    (by simp [planAdjFresh, freshA, freshB, roomAdjA, roomAdjB])
    (by
      intro r hr
      simp only [planAdjFresh, List.mem_cons, List.mem_singleton] at hr
      rcases hr with rfl | rfl | h
      · rfl
      · rfl
      · simp at h)
    0 1 freshAAfter freshBAfter
    (by rw [optimizeLayout_rooms_getElem planAdjFresh 0 (by simp [planAdjFresh])]; rfl)
    (by rw [optimizeLayout_rooms_getElem planAdjFresh 1 (by simp [planAdjFresh])]; rfl)

/-- C10 counterexample: on `planAdjStale` — two far-apart rooms with
pairwise distinct names, where room "A" carries a pre-existing (stale)
adjacency entry "B" — the annotated adjacency relation is *not* symmetric:
"B" stays in "A"'s list while "A" is not in "B"'s list.  The pass is
append-only, so symmetry as claimed for *every* floor plan fails. -/
theorem c10_cex_stale_adjacency_asymmetric :
    (planAdjStale.rooms.map Room.name).Nodup ∧
    ¬ (∀ (i j : ℕ) (ri rj : Room ℝ),
        (optimizeLayout planAdjStale).rooms[i]? = some ri →
        (optimizeLayout planAdjStale).rooms[j]? = some rj →
        (rj.name ∈ ri.adjacentRooms ↔ ri.name ∈ rj.adjacentRooms)) := by
  refine ⟨by simp [planAdjStale, roomAdjA, roomAdjB], ?_⟩
  intro hall
  have h0 := optimizeLayout_rooms_getElem planAdjStale 0 (by simp [planAdjStale])
  have h1 := optimizeLayout_rooms_getElem planAdjStale 1 (by simp [planAdjStale])
  have hiff' := hall 0 1 _ _ h0 h1
  have hiff : ("B" ∈ adjacentAfter planAdjStale.rooms 0 roomAdjA ↔
      "A" ∈ adjacentAfter planAdjStale.rooms 1 roomAdjB) := hiff'
  have hmemA : ("B" : String) ∈ adjacentAfter planAdjStale.rooms 0 roomAdjA := by
    unfold adjacentAfter
    rw [mem_foldl_adj]
    left
    show ("B" : String) ∈ roomAdjA.adjacentRooms
    simp [roomAdjA]
  have hmemB : ("A" : String) ∉ adjacentAfter planAdjStale.rooms 1 roomAdjB := by
    unfold adjacentAfter
    rw [mem_foldl_adj]
    rintro (h | ⟨jo, hjo, hne, hdist, hname⟩)
    · simp [roomAdjB] at h
    · have henum : planAdjStale.rooms.enum = [(0, roomAdjA), (1, roomAdjB)] := rfl
      rw [henum] at hjo
      rcases List.mem_cons.1 hjo with rfl | hjo2
      · dsimp only at hdist
        rw [roomDistance_BA] at hdist
        norm_num at hdist
      · rcases List.mem_cons.1 hjo2 with rfl | h3
        · exact hne rfl
        · simp at h3
  exact hmemB (hiff.1 hmemA)

/-- C2 counterexample: for totalSqFt=2000, 3 bedrooms, 2 bathrooms, style
"modern", no special rooms, the placed rooms are *not* pairwise separated
by the 5-ft margin: the Living Room and the Kitchen are both placed at the
fallback position (50, 50) and their margin-expanded rectangles
intersect. -/
theorem c2_cex_rooms_overlap :
    ¬ List.Pairwise rectSeparated (plan2000.rooms.map roomRect) := by
  obtain ⟨r0, r1, rest, heq, _, hx0, hy0, hw0, hh0, _, _, hx1, hy1, hw1, hh1⟩ := plan2000_shape
  intro h
  rw [heq] at h
  simp only [List.map_cons, List.pairwise_cons] at h
  have hsep := h.1 (roomRect r1) (by simp)
  unfold rectSeparated roomRect at hsep
  rw [hx0, hy0, hw0, hh0, hx1, hy1, hw1, hh1] at hsep
  norm_num at hsep

/-- C2 (amended): for the §8 common-case input every candidate scan is
empty, so the first two rooms (Living Room, 30 x 20, and Kitchen, 20 x 20)
are both placed by the documented fallback at (50, 50); their
margin-expanded rectangles intersect, so pairwise non-overlap fails via the
documented fallback path. -/
theorem c2_fallback_placement_overlaps :
    ∃ r0 r1 rest, plan2000.rooms = r0 :: r1 :: rest ∧
      roomGeom r0 = (RoomType.living, 50, 50, 30, 20) ∧
      roomGeom r1 = (RoomType.kitchen, 50, 50, 20, 20) ∧
      ¬ rectSeparated (roomRect r0) (roomRect r1) := by
  obtain ⟨r0, r1, rest, heq, ht0, hx0, hy0, hw0, hh0, _, ht1, hx1, hy1, hw1, hh1⟩ :=
    plan2000_shape
  refine ⟨r0, r1, rest, heq, ?_, ?_, ?_⟩
  · unfold roomGeom
    rw [ht0, hx0, hy0, hw0, hh0]
  · unfold roomGeom
    rw [ht1, hx1, hy1, hw1, hh1]
  · unfold rectSeparated roomRect
    rw [hx0, hy0, hw0, hh0, hx1, hy1, hw1, hh1]
    norm_num

/-- C7 (amended): in every generated plan, every living room carries
exactly two windows — a 6-ft picture window at 1/3 of the width and a 4-ft
casement window at 2/3 of the width — both on the room's far edge at
`y + height` (not on the edge at `y`). -/
theorem c7_living_windows_on_far_edge (T : ℝ) (bed bath : ℕ) (style : String)
    (sr : Option SpecialRooms) (lot : Option (ℝ × ℝ)) :
    (generateFloorPlan T bed bath style sr lot).rooms.Forall fun r =>
      r.roomType ≠ RoomType.living ∨
        r.windows = [⟨r.x + r.width / 3, r.y + r.height, 6, 5, "picture"⟩,
                     ⟨r.x + r.width * 2 / 3, r.y + r.height, 4, 5, "casement"⟩] := by
  rw [List.forall_iff_forall_mem]
  intro r hr
  by_cases ht : r.roomType = RoomType.living
  · exact Or.inr (generate_living_windows T bed bath style sr lot r hr ht)
  · exact Or.inl ht

/-- C7 counterexample: in the plan generated for the §8 common-case input,
the Living Room sits at `y = 50` but both of its windows sit at `y = 70`
(= `y + height`), so the claim that the two windows lie on the edge at the
room's `y` coordinate is false. -/
theorem c7_cex_windows_not_on_south_edge :
    ¬ plan2000.rooms.Forall c7ClaimPred := by
  obtain ⟨r0, r1, rest, heq, ht0, hx0, hy0, hw0, hh0, hwin0, -, -, -, -, -⟩ := plan2000_shape
  intro h
  rw [heq, List.forall_cons] at h
  rcases h.1 with hne | hwin
  · exact hne ht0
  · rw [hwin0] at hwin
    have hhead := List.head_eq_of_cons_eq hwin
    have h70 : (70 : ℝ) = r0.y := congrArg WindowSpec.y hhead
    rw [hy0] at h70
    norm_num at h70

end HousePlanCad
